import Mathlib

/-!
# netifd: IP settings, host-route resolver and delta callbacks

A shallow embedding of `interface-ip.c`.

* A `union if_addr` is the list of its 16 bytes, in memory order (which is
  network order: byte 0 holds bits 0..7 of the address, high bit first).
* `uint32_t` fields holding an IPv4 quantity in network order (`broadcast`,
  `point_to_point`) are represented by the number whose big-endian bytes are
  the bytes in memory, so that the model does not depend on the endianness of
  the host.
* Sets (`vlist`) are lists in iteration order.
* Kernel calls are recorded, in program order, in a trace of `kernel_op`.
-/

namespace Netifd

/-! ## Byte buffers -/

/-- The 16 bytes of a `union if_addr`, in memory order. -/
abbrev if_addr := List Nat

/-- The all-zero address, as left by `calloc`. -/
def if_addr_zero : if_addr := List.replicate 16 0

/-- `memset(p + off, c, n)` on the buffer `p`; bytes past the end of the
buffer are not represented. -/
def memset : List Nat → Nat → Nat → Nat → List Nat
  | [], _, _, _ => []
  | x :: xs, 0, _, 0 => x :: xs
  | _ :: xs, 0, c, n + 1 => c :: memset xs 0 c n
  | x :: xs, off + 1, c, n => x :: memset xs off c n

/-- `p[i] &= v` for a byte of the buffer, `v` being an `int`: the byte is
promoted, and-ed and truncated back to eight bits; bytes past the end of the
buffer are not represented. -/
def and_byte : List Nat → Nat → Nat → List Nat
  | [], _, _ => []
  | x :: xs, 0, v => ((x &&& v) % 256) :: xs
  | x :: xs, i + 1, v => x :: and_byte xs i v

/-- What the C source leaves to the compilation target.

* `sizeof_ptr`: the size of a data pointer. `clear_if_addr` takes `sizeof(a)`
  of its parameter `union if_addr *a`, which is this number.
* `shr32_wide x n`: the value the target computes for `x >> n` on a
  `uint32_t` when `n ≥ 32`, a shift the C language does not define. -/
structure platform where
  sizeof_ptr : Nat
  shr32_wide : Nat → Nat → Nat

/-- A 64-bit target whose shifter uses the low five bits of the count. -/
def x86_64 : platform := { sizeof_ptr := 8, shr32_wide := fun x n => x >>> (n % 32) }

/-- A 32-bit target whose shifter uses the low five bits of the count. -/
def mips32 : platform := { sizeof_ptr := 4, shr32_wide := fun x n => x >>> (n % 32) }

/-- A 32-bit target whose shifter uses the low eight bits of the count. -/
def arm32 : platform :=
  { sizeof_ptr := 4, shr32_wide := fun x n => if n % 256 < 32 then x >>> (n % 256) else 0 }

/-- `x >> n` on a `uint32_t`. -/
def shr_u32 (pf : platform) (x n : Nat) : Nat :=
  if n < 32 then (x % 2 ^ 32) >>> n else pf.shr32_wide (x % 2 ^ 32) n % 2 ^ 32

/-- `clear_if_addr(a, mask)`.

`sizeof(a)` in the source is the size of the pointer `a`, not of the 16-byte
union it points to.

For `mask = 0` the last statement is `p[-1] &= ~0`: it addresses the byte
before the union and writes back the value it read; the 16 bytes of the
union are not touched by it. -/
def clear_if_addr (pf : platform) (a : if_addr) (mask : Nat) : if_addr :=
  let m_bytes := (mask + 7) / 8
  let m_clear := ((1 <<< (m_bytes * 8 - mask)) - 1) % 256
  let sizeof_a := pf.sizeof_ptr
  let p := if m_bytes < sizeof_a then memset a m_bytes 0 (sizeof_a - m_bytes) else a
  if m_bytes = 0 then p
  else and_byte p (m_bytes - 1) (0xFFFFFFFF - m_clear)

/-- `match_if_addr(a1, a2, mask)`: both addresses are copied, cleared and
compared over the whole union. -/
def match_if_addr (pf : platform) (a1 a2 : if_addr) (mask : Nat) : Bool :=
  let p1 := clear_if_addr pf a1 mask
  let p2 := clear_if_addr pf a2 mask
  decide (p1 = p2)

/-! ## What the specification says about prefixes -/

/-- Bit `i` of an address, counting from the high bit of byte 0. -/
def addr_bit (a : if_addr) (i : Nat) : Bool :=
  (a.getD (i / 8) 0).testBit (7 - i % 8)

/-- The addresses agree on their first `mask` bits. -/
def agree_upto (a1 a2 : if_addr) (mask : Nat) : Prop :=
  ∀ i, i < mask → addr_bit a1 i = addr_bit a2 i

instance (a1 a2 : if_addr) (mask : Nat) : Decidable (agree_upto a1 a2 mask) :=
  Nat.decidableBallLT mask (fun i _ => addr_bit a1 i = addr_bit a2 i)

/-- The address with every bit at position `mask` or beyond set to zero. -/
def zero_from (a : if_addr) (mask : Nat) : if_addr :=
  (List.range a.length).map (fun j =>
    (List.range 8).foldl
      (fun acc k => if 8 * j + k < mask ∧ addr_bit a (8 * j + k) then acc + 2 ^ (7 - k) else acc) 0)

/-- The byte `b` with its `r` high bits kept and the others zero. -/
def keep_bits (b r : Nat) : Nat :=
  (List.range 8).foldl
    (fun acc k => if k < r ∧ b.testBit (7 - k) then acc + 2 ^ (7 - k) else acc) 0

/-- `::1`-like address: fifteen zero bytes and a last byte of one. -/
def addr_low_one : if_addr := List.replicate 15 0 ++ [1]

/-! ## Data model -/

/-- Modelled from the spec: the bitset `enum device_addr_flags` declared in
`interface-ip.h`, which is not among the sources. The spec gives its members
(`INET4|INET6`, `EXTERNAL`, `KERNEL`, `METRIC`) but not their bit values, so a
flag word is the record of its members; `inet6` is the test
`(flags & DEVADDR_FAMILY) == DEVADDR_INET6` and `!inet6` the test
`(flags & DEVADDR_FAMILY) == DEVADDR_INET4`. -/
structure addr_flags where
  inet6 : Bool
  external : Bool
  kernel : Bool
  metric : Bool
deriving DecidableEq, Repr

/-- `DEVADDR_INET4`. -/
def DEVADDR_INET4 : addr_flags := ⟨false, false, false, false⟩

/-- `DEVADDR_INET6`. -/
def DEVADDR_INET6 : addr_flags := ⟨true, false, false, false⟩

/-- `struct device_addr`, without its set linkage. -/
structure device_addr where
  enabled : Bool
  flags : addr_flags
  mask : Nat
  addr : if_addr
  broadcast : Nat
  point_to_point : Nat
deriving DecidableEq, Repr

/-- `struct device_route`, without its set linkage. `iface` is the pointer to
the owning interface, an interface being identified by its name (the key of
the `interfaces` set); `none` is the null pointer. -/
structure device_route where
  iface : Option String
  enabled : Bool
  flags : addr_flags
  mask : Nat
  addr : if_addr
  nexthop : if_addr
  mtu : Nat
  metric : Nat
deriving DecidableEq, Repr

/-- `struct interface_ip_settings`: the fields this file reads. -/
structure interface_ip_settings where
  enabled : Bool
  no_defaultroute : Bool
  addr : List device_addr
  route : List device_route
deriving DecidableEq, Repr

/-- `struct interface`: the fields this file reads. `l3_dev` is the device
`iface->l3_dev.dev`, identified by its interface name. -/
structure interface where
  name : String
  metric : Nat
  l3_dev : String
  proto_ip : interface_ip_settings
  config_ip : interface_ip_settings
deriving DecidableEq, Repr

/-- A `struct device_route` as `calloc` returns it. -/
def device_route_zero : device_route :=
  { iface := none, enabled := false, flags := DEVADDR_INET4, mask := 0,
    addr := if_addr_zero, nexthop := if_addr_zero, mtu := 0, metric := 0 }

/-- `memcpy(dst, src, n)` on byte buffers. -/
def memcpy (dst src : List Nat) (n : Nat) : List Nat :=
  src.take n ++ dst.drop n

/-! ## Host-route resolver -/

/-- The loop of `__find_ip_addr_target` over the elements of `ip->addr`. -/
def find_ip_addr_target_loop (pf : platform) (a : if_addr) (v6 : Bool) :
    List device_addr → Bool
  | [] => false
  | addr :: rest =>
    if !addr.enabled then find_ip_addr_target_loop pf a v6 rest
    else if v6 != addr.flags.inet6 then find_ip_addr_target_loop pf a v6 rest
    else if !match_if_addr pf addr.addr a addr.mask then find_ip_addr_target_loop pf a v6 rest
    else true

/-- `__find_ip_addr_target(ip, a, v6)`. -/
def __find_ip_addr_target (pf : platform) (ip : interface_ip_settings) (a : if_addr)
    (v6 : Bool) : Bool :=
  find_ip_addr_target_loop pf a v6 ip.addr

/-- The test `!*res || route->mask < (*res)->mask`. -/
def route_replaces (res : Option device_route) (route : device_route) : Bool :=
  match res with
  | none => true
  | some r => decide (route.mask < r.mask)

/-- The loop of `__find_ip_route_target` over the elements of `ip->route`;
`res` is the value of `*res`. -/
def find_ip_route_target_loop (pf : platform) (a : if_addr) (v6 : Bool) :
    List device_route → Option device_route → Option device_route
  | [], res => res
  | route :: rest, res =>
    if !route.enabled then find_ip_route_target_loop pf a v6 rest res
    else if v6 != route.flags.inet6 then find_ip_route_target_loop pf a v6 rest res
    else if !match_if_addr pf route.addr a route.mask then
      find_ip_route_target_loop pf a v6 rest res
    else if route_replaces res route then find_ip_route_target_loop pf a v6 rest (some route)
    else find_ip_route_target_loop pf a v6 rest res

/-- `__find_ip_route_target(ip, a, v6, res)`, returning the new `*res`. -/
def __find_ip_route_target (pf : platform) (ip : interface_ip_settings) (a : if_addr)
    (v6 : Bool) (res : Option device_route) : Option device_route :=
  find_ip_route_target_loop pf a v6 ip.route res

/-- `interface_ip_find_addr_target(iface, a, v6)`. -/
def interface_ip_find_addr_target (pf : platform) (iface : interface) (a : if_addr)
    (v6 : Bool) : Bool :=
  __find_ip_addr_target pf iface.proto_ip a v6 || __find_ip_addr_target pf iface.config_ip a v6

/-- `interface_ip_find_route_target(iface, a, v6, route)`, returning the new
`*route`. -/
def interface_ip_find_route_target (pf : platform) (iface : interface) (a : if_addr)
    (v6 : Bool) (route : Option device_route) : Option device_route :=
  __find_ip_route_target pf iface.config_ip a v6 (__find_ip_route_target pf iface.proto_ip a v6 route)

/-- What a call of `interface_ip_add_target_route` did.

* `null`: it returned `NULL` without calling `vlist_add`.
* `added iface route`: it called `vlist_add(&iface->host_routes, route)`,
  once, and returned `iface`.
* `fault`: it dereferenced a null `r_next->iface`. -/
inductive target_result where
  | null : target_result
  | added (iface : String) (route : device_route) : target_result
  | fault : target_result
deriving DecidableEq, Repr

/-- The part of `interface_ip_add_target_route` after the loop over the
interfaces, when no address matched. The `memcpy` of the whole `nexthop`
union is the assignment of its value. -/
def add_target_route_finish (route : device_route) : Option device_route → target_result
  | none => target_result.null
  | some r_next =>
    match r_next.iface with
    | none => target_result.fault
    | some iface =>
      target_result.added iface
        { route with nexthop := r_next.nexthop,
                     mtu := r_next.mtu, metric := r_next.metric, iface := some iface }

/-- The loop of `interface_ip_add_target_route` over the `interfaces` set and
what follows it. -/
def add_target_route_loop (pf : platform) (addr : if_addr) (v6 : Bool) (route : device_route) :
    List interface → Option device_route → target_result
  | [], r_next => add_target_route_finish route r_next
  | iface :: rest, r_next =>
    if interface_ip_find_addr_target pf iface addr v6 then
      target_result.added iface.name { route with iface := some iface.name }
    else
      add_target_route_loop pf addr v6 route rest
        (interface_ip_find_route_target pf iface addr v6 r_next)

/-- `interface_ip_add_target_route(addr, v6)` over the global `interfaces`.
The allocation of the host route is taken to succeed. -/
def interface_ip_add_target_route (pf : platform) (interfaces : List interface)
    (addr : if_addr) (v6 : Bool) : target_result :=
  let route := device_route_zero
  let route := { route with flags := if v6 then DEVADDR_INET6 else DEVADDR_INET4 }
  let route := { route with mask := if v6 then 128 else 32 }
  let route := { route with addr := memcpy route.addr addr (if v6 then 16 else 4) }
  add_target_route_loop pf addr v6 route interfaces none

/-! ## Kernel operations and delta callbacks -/

/-- A call into the kernel executor, with the device and the value of the
entry it was handed. -/
inductive kernel_op where
  | add_address (dev : String) (addr : device_addr) : kernel_op
  | del_address (dev : String) (addr : device_addr) : kernel_op
  | add_route (dev : String) (route : device_route) : kernel_op
  | del_route (dev : String) (route : device_route) : kernel_op
deriving DecidableEq, Repr

/-- The first four bytes of the union read as a 32-bit number in network
order (`addr.in.s_addr` seen through `ntohl`). -/
def in_addr_be (a : if_addr) : Nat :=
  ((a.getD 0 0 % 256 * 256 + a.getD 1 0 % 256) * 256 + a.getD 2 0 % 256) * 256 + a.getD 3 0 % 256

/-- `interface_handle_subnet_route(iface, addr, add)`. `stack` is the content
of the local `struct device_route route` on entry: the function assigns
`iface`, `flags`, `mask`, `addr` and, when adding, `metric`, and leaves the
other fields as it found them. -/
def interface_handle_subnet_route (pf : platform) (stack : device_route) (iface : interface)
    (addr : device_addr) (add : Bool) : List kernel_op :=
  let dev := iface.l3_dev
  let route := { stack with iface := some iface.name }
  let route := { route with flags := addr.flags }
  let route := { route with mask := addr.mask }
  let route := { route with addr := addr.addr }
  let route := { route with addr := clear_if_addr pf route.addr route.mask }
  if add then
    let route := { route with flags := { route.flags with kernel := true } }
    let op1 := kernel_op.del_route dev route
    let route := { route with flags := { route.flags with kernel := false } }
    let route := { route with metric := iface.metric }
    [op1, kernel_op.add_route dev route]
  else
    [kernel_op.del_route dev route]

/-- Lines 294-306 of `interface_update_proto_addr`: the broadcast address of
an IPv4 entry that has none. -/
def derive_broadcast (pf : platform) (a_new : device_addr) : device_addr :=
  if !a_new.flags.inet6 && a_new.broadcast == 0 then
    let mask := 0xFFFFFFFF
    let mask := shr_u32 pf mask a_new.mask
    { a_new with broadcast := in_addr_be a_new.addr ||| mask }
  else a_new

/-- The value of `keep` computed by `interface_update_proto_addr`. -/
def addr_keep (a_new a_old : Option device_addr) : Bool :=
  match a_new, a_old with
  | some n, some o =>
    let keep := true
    let keep := if o.flags != n.flags then false else keep
    let keep := if !n.flags.inet6 && n.broadcast != o.broadcast then false else keep
    keep
  | _, _ => false

/-- `interface_update_proto_addr(tree, node_new, node_old)` for a set of the
interface `iface`: the entry `node_new` as the callback leaves it, and the
kernel operations issued, in order. `stack_old` and `stack_new` are what the
two calls of `interface_handle_subnet_route` find in their local route. -/
def interface_update_proto_addr (pf : platform) (stack_old stack_new : device_route)
    (iface : interface)
    (node_new node_old : Option device_addr) : Option device_addr × List kernel_op :=
  let dev := iface.l3_dev
  let a_new := node_new.map (derive_broadcast pf)
  let a_old := node_old
  let keep := addr_keep a_new a_old
  let ops_old :=
    match a_old with
    | some o =>
      if !o.flags.external && o.enabled && !keep then
        interface_handle_subnet_route pf stack_old iface o false ++ [kernel_op.del_address dev o]
      else []
    | none => []
  match a_new with
  | some n =>
    let n := { n with enabled := true }
    let ops_new :=
      if !n.flags.external && !keep then
        kernel_op.add_address dev n ::
          (if iface.metric != 0 then interface_handle_subnet_route pf stack_new iface n true
           else [])
      else []
    (some n, ops_old ++ ops_new)
  | none => (none, ops_old)

/-- `enable_route(ip, route)`. -/
def enable_route (ip : interface_ip_settings) (route : device_route) : Bool :=
  if ip.no_defaultroute && route.mask == 0 then false
  else ip.enabled

/-- The value of `keep` computed by `interface_update_proto_route`. -/
def route_keep (node_new node_old : Option device_route) : Bool :=
  match node_old, node_new with
  | some route_old, some route_new => decide (route_old.nexthop = route_new.nexthop)
  | _, _ => false

/-- `interface_update_proto_route(tree, node_new, node_old)` for the route set
of the layer `ip` of the interface `iface`: the entry `node_new` as the
callback leaves it, and the kernel operations issued, in order. -/
def interface_update_proto_route (ip : interface_ip_settings) (iface : interface)
    (node_new node_old : Option device_route) : Option device_route × List kernel_op :=
  let dev := iface.l3_dev
  let keep := route_keep node_new node_old
  let ops_old :=
    match node_old with
    | some route_old =>
      if !route_old.flags.external && route_old.enabled && !keep then
        [kernel_op.del_route dev route_old]
      else []
    | none => []
  match node_new with
  | some route_new =>
    let _enabled := enable_route ip route_new
    let route_new :=
      if !route_new.flags.metric then { route_new with metric := iface.metric } else route_new
    let ops_new :=
      if !route_new.flags.external && !keep && _enabled then
        [kernel_op.add_route dev route_new]
      else []
    let route_new := { route_new with iface := some iface.name }
    let route_new := { route_new with enabled := _enabled }
    (some route_new, ops_old ++ ops_new)
  | none => (none, ops_old)

/-! ## Entry API -/

/-- The table `tb` that `blobmsg_parse` fills from the blob under the policy
`route_attr`: one optional value per attribute. -/
structure route_blob where
  interface : Option String
  target : Option String
  netmask : Option String
  gateway : Option String
  metric : Option Nat
  mtu : Option Nat
deriving DecidableEq, Repr

/-- The functions `interface_ip_add_route` calls from outside this file.

* `parse_netmask_string s v6`: the value it returns, as stored in the
  `unsigned int` field `mask`.
* `inet_pton v6 s`: the 4 or 16 bytes it writes when it accepts the string,
  `none` when it returns 0. -/
structure parsers where
  parse_netmask_string : String → Bool → Nat
  inet_pton : Bool → String → Option (List Nat)

/-- The layer of an interface a route goes to. -/
inductive ip_layer where
  | proto_ip : ip_layer
  | config_ip : ip_layer
deriving DecidableEq, Repr

/-- What a call of `interface_ip_add_route` did: nothing, or one
`vlist_add(&ip->route, route)` on layer `layer` of interface `iface`. -/
inductive add_route_result where
  | nothing : add_route_result
  | added (iface : String) (layer : ip_layer) (route : device_route) : add_route_result
deriving DecidableEq, Repr

/-- `interface_ip_add_route` from the allocation of the route on: `none` is
the `error:` exit, `some route` the route handed to `vlist_add`. -/
def build_route (ps : parsers) (tb : route_blob) (v6 : Bool) : Option device_route :=
  let route := device_route_zero
  let route := { route with flags := if v6 then DEVADDR_INET6 else DEVADDR_INET4 }
  let route := { route with mask := if v6 then 128 else 32 }
  let alen := if v6 then 16 else 4
  let step_mask : Option device_route :=
    match tb.netmask with
    | some cur =>
      let route := { route with mask := ps.parse_netmask_string cur v6 }
      if route.mask > (if v6 then 128 else 32) then none else some route
    | none => some route
  step_mask.bind fun route =>
  let step_target : Option device_route :=
    match tb.target with
    | some cur =>
      match ps.inet_pton v6 cur with
      | none => none
      | some bytes => some { route with addr := memcpy route.addr bytes alen }
    | none => some route
  step_target.bind fun route =>
  let step_gateway : Option device_route :=
    match tb.gateway with
    | some cur =>
      match ps.inet_pton v6 cur with
      | none => none
      | some bytes => some { route with nexthop := memcpy route.nexthop bytes alen }
    | none => some route
  step_gateway.bind fun route =>
  let route :=
    match tb.metric with
    | some cur =>
      let route := { route with metric := cur % 2 ^ 32 }
      { route with flags := { route.flags with metric := true } }
    | none => route
  let route :=
    match tb.mtu with
    | some cur => { route with mtu := cur % 2 ^ 32 }
    | none => route
  some route

/-- Lines 187-198 of `interface_ip_add_route`: the interface and layer the
route is for, `none` when the function returns there. -/
def add_route_target (interfaces : List interface) (iface : Option String) (tb : route_blob) :
    Option (String × ip_layer) :=
  match iface with
  | none =>
    match tb.interface with
    | none => none
    | some cur =>
      match interfaces.find? (fun i => i.name == cur) with
      | none => none
      | some i => some (i.name, ip_layer.config_ip)
  | some i => some (i, ip_layer.proto_ip)

/-- `interface_ip_add_route(iface, attr, v6)`: `iface` is the name of the
interface passed, `none` for a null pointer; `interfaces` is the global set,
searched by name. The allocation of the route is taken to succeed. -/
def interface_ip_add_route (ps : parsers) (interfaces : List interface) (iface : Option String)
    (tb : route_blob) (v6 : Bool) : add_route_result :=
  match add_route_target interfaces iface tb with
  | none => add_route_result.nothing
  | some (name, layer) =>
    match build_route ps tb v6 with
    | none => add_route_result.nothing
    | some route => add_route_result.added name layer route

/-! ## The tests of the resolver loops -/

/-- The three tests the loop of `__find_ip_addr_target` applies to an entry
before it returns true: `addr->enabled`, the family test, and
`match_if_addr(&addr->addr, a, addr->mask)`. -/
def addr_passes (pf : platform) (dest : if_addr) (v6 : Bool) (a : device_addr) : Bool :=
  a.enabled && (a.flags.inet6 == v6) && match_if_addr pf a.addr dest a.mask

/-- Some entry of `proto_ip.addr` or `config_ip.addr` passes the three tests
of `__find_ip_addr_target`. -/
def iface_passes (pf : platform) (dest : if_addr) (v6 : Bool) (i : interface) : Prop :=
  ∃ a ∈ i.proto_ip.addr ++ i.config_ip.addr, addr_passes pf dest v6 a = true

/-- The three tests the loop of `__find_ip_route_target` applies to an entry
before it compares masks: `route->enabled`, the family test, and
`match_if_addr(&route->addr, a, route->mask)`. -/
def route_passes (pf : platform) (dest : if_addr) (v6 : Bool) (r : device_route) : Bool :=
  r.enabled && (r.flags.inet6 == v6) && match_if_addr pf r.addr dest r.mask

/-- The routes that pass the three tests of `__find_ip_route_target`, in
iteration order: interfaces in order, `proto_ip` before `config_ip`. -/
def passing_routes (pf : platform) (dest : if_addr) (v6 : Bool) : List interface → List device_route
  | [] => []
  | i :: rest =>
    (i.proto_ip.route ++ i.config_ip.route).filter (route_passes pf dest v6)
      ++ passing_routes pf dest v6 rest

instance (pf : platform) (dest : if_addr) (v6 : Bool) (i : interface) :
    Decidable (iface_passes pf dest v6 i) := by
  unfold iface_passes; infer_instance

/-! ## The resolver, as the specification words it -/

/-- An enabled address of the requested family that matches the destination
under its own prefix length: the two agree on the first `mask` bits. -/
def addr_hits (dest : if_addr) (v6 : Bool) (a : device_addr) : Bool :=
  a.enabled && (a.flags.inet6 == v6) && decide (agree_upto a.addr dest a.mask)

/-- The interface has an on-link hit in `proto_ip.addr` or `config_ip.addr`. -/
def on_link (dest : if_addr) (v6 : Bool) (i : interface) : Prop :=
  ∃ a ∈ i.proto_ip.addr ++ i.config_ip.addr, addr_hits dest v6 a = true

/-- An enabled route of the requested family whose address matches the
destination under the route's mask: the two agree on the first `mask` bits. -/
def route_hits (dest : if_addr) (v6 : Bool) (r : device_route) : Bool :=
  r.enabled && (r.flags.inet6 == v6) && decide (agree_upto r.addr dest r.mask)

/-- The set `M`, in iteration order: interfaces in order, `proto_ip` before
`config_ip`. -/
def matching_routes (dest : if_addr) (v6 : Bool) : List interface → List device_route
  | [] => []
  | i :: rest =>
    (i.proto_ip.route ++ i.config_ip.route).filter (route_hits dest v6)
      ++ matching_routes dest v6 rest

instance (dest : if_addr) (v6 : Bool) (i : interface) : Decidable (on_link dest v6 i) := by
  unfold on_link; infer_instance

/-- An IPv4 address as the daemon stores it in the 16-byte union: the four
bytes of the address followed by twelve zero bytes. -/
def ipv4_padded (a : if_addr) : Prop :=
  a.length = 16 ∧ (∀ j, j < a.length → a.getD j 0 < 256) ∧ (∀ j, 4 ≤ j → a.getD j 0 = 0)

/-- The running choice of the route scan after a list of passing routes:
a route replaces the choice when there is none yet or its mask is strictly
smaller. -/
def pick_route : Option device_route → List device_route → Option device_route
  | res, [] => res
  | res, r :: rest => pick_route (if route_replaces res r then some r else res) rest

/-- The host route for a destination: `mask` 32 or 128, `addr` the 4 or 16
bytes of the destination, everything else as given. -/
def host_route (dest : if_addr) (v6 : Bool) (iface : String) (nexthop : if_addr)
    (mtu metric : Nat) : device_route :=
  { iface := some iface, enabled := false,
    flags := if v6 then DEVADDR_INET6 else DEVADDR_INET4,
    mask := if v6 then 128 else 32,
    addr := if v6 then dest else dest.take 4 ++ List.replicate 12 0,
    nexthop := nexthop, mtu := mtu, metric := metric }

/-! ## Scenario data -/

/-- A dotted-quad address in the 16-byte union. -/
def ipv4 (a b c d : Nat) : if_addr := [a, b, c, d] ++ List.replicate 12 0

/-- An empty IP settings layer, as `__interface_ip_init` leaves it. -/
def ip_empty : interface_ip_settings :=
  { enabled := true, no_defaultroute := false, addr := [], route := [] }

/-- Interface `A` of scenario S3: address `10.0.0.1/24`. -/
def iface_A_addr : interface :=
  { name := "A", metric := 0, l3_dev := "eth0",
    proto_ip := { ip_empty with addr :=
      [{ enabled := true, flags := DEVADDR_INET4, mask := 24, addr := ipv4 10 0 0 1,
         broadcast := 0x0A0000FF, point_to_point := 0 }] },
    config_ip := ip_empty }

/-- Interface `A` of scenario S4: route `0.0.0.0/0 via 192.168.1.1`. -/
def iface_A_route : interface :=
  { name := "A", metric := 0, l3_dev := "eth0",
    proto_ip := { ip_empty with route :=
      [{ iface := some "A", enabled := true, flags := DEVADDR_INET4, mask := 0,
         addr := ipv4 0 0 0 0, nexthop := ipv4 192 168 1 1, mtu := 0, metric := 0 }] },
    config_ip := ip_empty }

/-- Interface `B`: no address, a default route `0.0.0.0/0 via 192.168.2.1`
and a route `10.0.0.0/8 via 192.168.2.2`. -/
def iface_B_route : interface :=
  { name := "B", metric := 0, l3_dev := "eth1",
    proto_ip := { ip_empty with route :=
      [{ iface := some "B", enabled := true, flags := DEVADDR_INET4, mask := 0,
         addr := ipv4 0 0 0 0, nexthop := ipv4 192 168 2 1, mtu := 0, metric := 0 }] },
    config_ip := { ip_empty with route :=
      [{ iface := some "B", enabled := true, flags := DEVADDR_INET4, mask := 8,
         addr := ipv4 10 0 0 0, nexthop := ipv4 192 168 2 2, mtu := 1400, metric := 5 }] } }

/-- The address `10.0.0.1/24` of scenario S1, broadcast unset. -/
def addr_10_0_0_1 : device_addr :=
  { enabled := false, flags := DEVADDR_INET4, mask := 24, addr := ipv4 10 0 0 1,
    broadcast := 0, point_to_point := 0 }

/-- An enabled address `192.168.7.2/30` with its broadcast set. -/
def addr_old : device_addr :=
  { enabled := true, flags := DEVADDR_INET4, mask := 30, addr := ipv4 192 168 7 2,
    broadcast := 0xC0A80703, point_to_point := 0 }

/-- The address `10.0.0.1/32`, broadcast unset. -/
def addr_host : device_addr :=
  { enabled := false, flags := DEVADDR_INET4, mask := 32, addr := ipv4 10 0 0 1,
    broadcast := 0, point_to_point := 0 }

/-- The bytes of `2001:db8::1`. -/
def addr6_bytes : if_addr := [0x20, 0x01, 0x0d, 0xb8, 0, 0, 0, 0, 0, 0, 0, 0, 0, 0, 0, 1]

/-- The address `2001:db8::1/64`. -/
def addr6 : device_addr :=
  { enabled := false, flags := DEVADDR_INET6, mask := 64, addr := addr6_bytes,
    broadcast := 0, point_to_point := 0 }

/-- An interface with metric 0 and one with metric 10, no entries. -/
def iface_m0 : interface :=
  { name := "lan", metric := 0, l3_dev := "eth0", proto_ip := ip_empty, config_ip := ip_empty }

/-- An interface with metric 10, no entries. -/
def iface_m10 : interface :=
  { name := "wan", metric := 10, l3_dev := "eth1", proto_ip := ip_empty, config_ip := ip_empty }

/-- The default route `0.0.0.0/0 via 192.168.1.1` of scenario S2. -/
def route_default : device_route :=
  { iface := none, enabled := false, flags := DEVADDR_INET4, mask := 0,
    addr := ipv4 0 0 0 0, nexthop := ipv4 192 168 1 1, mtu := 0, metric := 0 }

/-- A route `10.1.0.0/16 via 192.168.1.2`. -/
def route_net : device_route :=
  { iface := none, enabled := false, flags := DEVADDR_INET4, mask := 16,
    addr := ipv4 10 1 0 0, nexthop := ipv4 192 168 1 2, mtu := 0, metric := 0 }

/-- An enabled route `10.1.0.0/16 via 192.168.1.9`, as a previous epoch left it. -/
def route_net_old : device_route :=
  { iface := some "wan", enabled := true, flags := DEVADDR_INET4, mask := 16,
    addr := ipv4 10 1 0 0, nexthop := ipv4 192 168 1 9, mtu := 0, metric := 10 }

/-- A blob `{target: "10.1.0.0", netmask: "16", gateway: "192.168.1.2", metric: 7}`. -/
def blob_metric : route_blob :=
  { interface := none, target := some "10.1.0.0", netmask := some "16",
    gateway := some "192.168.1.2", metric := some 7, mtu := none }

/-- Parsers that know the strings of `blob_metric`. -/
def parsers_sample : parsers :=
  { parse_netmask_string := fun s _ => if s = "16" then 16 else 0xFFFFFFFF,
    inet_pton := fun _ s =>
      if s = "10.1.0.0" then some [10, 1, 0, 0]
      else if s = "192.168.1.2" then some [192, 168, 1, 2]
      else none }

/-! ## Enabling and disabling an IP settings layer -/

/-- The loop of `interface_ip_set_enabled` over `ip->addr`: the entries as it
leaves them and the kernel operations issued, in order. -/
def set_enabled_addr_loop (dev : String) (enabled : Bool) :
    List device_addr → List device_addr × List kernel_op
  | [] => ([], [])
  | addr :: rest =>
    let tail := set_enabled_addr_loop dev enabled rest
    if addr.enabled == enabled then (addr :: tail.1, tail.2)
    else
      let op := if enabled then kernel_op.add_address dev addr else kernel_op.del_address dev addr
      ({ addr with enabled := enabled } :: tail.1, op :: tail.2)

/-- The loop of `interface_ip_set_enabled` over `ip->route`; `ip` is the layer
with `enabled` already stored. -/
def set_enabled_route_loop (ip : interface_ip_settings) (iface : interface) (dev : String)
    (enabled : Bool) : List device_route → List device_route × List kernel_op
  | [] => ([], [])
  | route :: rest =>
    let tail := set_enabled_route_loop ip iface dev enabled rest
    let _enabled := enabled
    let _enabled := if !enable_route ip route then false else _enabled
    if route.enabled == _enabled then (route :: tail.1, tail.2)
    else if _enabled then
      let route := if !route.flags.metric then { route with metric := iface.metric } else route
      ({ route with enabled := _enabled } :: tail.1, kernel_op.add_route dev route :: tail.2)
    else
      ({ route with enabled := _enabled } :: tail.1, kernel_op.del_route dev route :: tail.2)

/-- `interface_ip_set_enabled(ip, enabled)` for a layer `ip` of the interface
`iface`; `dev` is the pointer `ip->iface->l3_dev.dev`, `none` when null. The
layer as the call leaves it and the kernel operations issued, in order. -/
def interface_ip_set_enabled (ip : interface_ip_settings) (iface : interface)
    (dev : Option String) (enabled : Bool) : interface_ip_settings × List kernel_op :=
  let ip := { ip with enabled := enabled }
  match dev with
  | none => (ip, [])
  | some dev =>
    let addrs := set_enabled_addr_loop dev enabled ip.addr
    let routes := set_enabled_route_loop ip iface dev enabled ip.route
    ({ ip with addr := addrs.1, route := routes.1 }, addrs.2 ++ routes.2)

/-! ## Set keys -/

/-- Modelled from the spec: the key of an address entry, the fields that
`addr_cmp` compares. The comparator takes every byte from `flags` to the end
of `struct device_addr`; the declaration of the structure is not among the
sources, and the spec lists the fields in that range as
`(flags, mask, addr, broadcast, point_to_point)`. -/
def addr_key (a : device_addr) : addr_flags × Nat × if_addr × Nat × Nat :=
  (a.flags, a.mask, a.addr, a.broadcast, a.point_to_point)

/-- Modelled from the spec: the key of a route entry, the fields that
`route_cmp` compares. The comparator takes every byte from `flags` to the end
of `struct device_route`; the declaration of the structure is not among the
sources, and the spec gives that range as `flags` through `metric`, the two
fields outside it being `iface` and `enabled`. -/
def route_key (r : device_route) : addr_flags × Nat × if_addr × if_addr × Nat × Nat :=
  (r.flags, r.mask, r.addr, r.nexthop, r.mtu, r.metric)

/-! ## Kernel executor: routes -/

/-- Modelled from the spec: the type of a device, `dev->type`; the sources
name `simple_device_type` only. -/
inductive device_type where
  | simple : device_type
  | bridge : device_type
  | vlan : device_type
  | tunnel : device_type
deriving DecidableEq, Repr

/-- `struct device`: the fields the executor and the event reader use. -/
structure device where
  ifname : String
  ifindex : Nat
  type : device_type
  present : Bool
  external : Bool
deriving DecidableEq, Repr

/-- The two commands `system_rt` is called with. -/
inductive route_cmd where
  | RTM_NEWROUTE : route_cmd
  | RTM_DELROUTE : route_cmd
deriving DecidableEq, Repr

/-- Address families. -/
inductive addr_family where
  | AF_INET : addr_family
  | AF_INET6 : addr_family
deriving DecidableEq, Repr

/-- Values of `rtm_protocol` the executor uses. -/
inductive rt_protocol where
  | RTPROT_KERNEL : rt_protocol
  | RTPROT_BOOT : rt_protocol
deriving DecidableEq, Repr

/-- Values of `rtm_scope` the executor uses. -/
inductive rt_scope where
  | RT_SCOPE_UNIVERSE : rt_scope
  | RT_SCOPE_LINK : rt_scope
  | RT_SCOPE_NOWHERE : rt_scope
deriving DecidableEq, Repr

/-- Values of `rtm_type` the executor uses; `RTN_UNSPEC` is 0. -/
inductive rt_type where
  | RTN_UNSPEC : rt_type
  | RTN_UNICAST : rt_type
deriving DecidableEq, Repr

/-- Values of `rtm_table` the executor uses. -/
inductive rt_table where
  | RT_TABLE_MAIN : rt_table
deriving DecidableEq, Repr

/-- `struct rtmsg`: the fields `system_rt` initialises; the others are zero. -/
structure rtmsg where
  rtm_family : addr_family
  rtm_dst_len : Nat
  rtm_table : rt_table
  rtm_protocol : rt_protocol
  rtm_scope : rt_scope
  rtm_type : rt_type
deriving DecidableEq, Repr

/-- A route attribute appended to the message. -/
inductive rt_attr where
  | RTA_DST (data : List Nat) : rt_attr
  | RTA_PRIORITY (value : Nat) : rt_attr
  | RTA_GATEWAY (data : List Nat) : rt_attr
  | RTA_OIF (ifindex : Nat) : rt_attr
deriving DecidableEq, Repr

/-- The netlink message `system_rt` hands to `system_rtnl_call`: command,
whether `NLM_F_CREATE | NLM_F_REPLACE` is set, header and attributes in
order. -/
structure route_msg where
  cmd : route_cmd
  create_replace : Bool
  rtm : rtmsg
  attrs : List rt_attr
deriving DecidableEq, Repr

/-- The value of `have_gw` in `system_rt`: the `alen` bytes of the nexthop are
not all zero. -/
def have_gw (route : device_route) (alen : Nat) : Bool :=
  (route.nexthop.take alen).any (fun b => b != 0)

/-- `system_rt(dev, route, cmd)`: the message composed. `rtm_dst_len` is an
`unsigned char`; `route->metric > 0` is taken on the value of the field as the
model holds it, a natural number. The allocation of the message is taken to
succeed. -/
def system_rt (dev : device) (route : device_route) (cmd : route_cmd) : route_msg :=
  let alen := if !route.flags.inet6 then 4 else 16
  let ifindex := dev.ifindex
  let have_gw := have_gw route alen
  let scope :=
    if cmd = route_cmd.RTM_DELROUTE then rt_scope.RT_SCOPE_NOWHERE
    else if have_gw then rt_scope.RT_SCOPE_UNIVERSE else rt_scope.RT_SCOPE_LINK
  let rtm : rtmsg :=
    { rtm_family := if alen = 4 then addr_family.AF_INET else addr_family.AF_INET6,
      rtm_dst_len := route.mask % 256,
      rtm_table := rt_table.RT_TABLE_MAIN,
      rtm_protocol :=
        if route.flags.kernel then rt_protocol.RTPROT_KERNEL else rt_protocol.RTPROT_BOOT,
      rtm_scope := scope,
      rtm_type := if cmd = route_cmd.RTM_DELROUTE then rt_type.RTN_UNSPEC else rt_type.RTN_UNICAST }
  let flags := if cmd = route_cmd.RTM_NEWROUTE then true else false
  let attrs : List rt_attr := []
  let attrs := if route.mask != 0 then attrs ++ [rt_attr.RTA_DST (route.addr.take alen)] else attrs
  let attrs := if route.metric > 0 then attrs ++ [rt_attr.RTA_PRIORITY route.metric] else attrs
  let attrs := if have_gw then attrs ++ [rt_attr.RTA_GATEWAY (route.nexthop.take alen)] else attrs
  let attrs := attrs ++ [rt_attr.RTA_OIF ifindex]
  { cmd := cmd, create_replace := flags, rtm := rtm, attrs := attrs }

/-- `system_add_route(dev, route)`. -/
def system_add_route (dev : device) (route : device_route) : route_msg :=
  system_rt dev route route_cmd.RTM_NEWROUTE

/-- `system_del_route(dev, route)`. -/
def system_del_route (dev : device) (route : device_route) : route_msg :=
  system_rt dev route route_cmd.RTM_DELROUTE

/-! ## Event reader: hotplug messages -/

/-- `strncmp(data, lit, n) == 0` for a literal `lit` of `n` characters: the
string starts with the literal. -/
def starts_with (lit s : List Char) : Bool :=
  lit.isPrefixOf s

/-- The split of a string at its first `=`, as `strchr(cur, '=')` and
`*sep = 0` make it: `none` when there is no `=`, else the key before it and
the value after it. -/
def split_key : List Char → Option (List Char × List Char)
  | [] => none
  | c :: rest =>
    if c = '=' then some ([], rest)
    else
      match split_key rest with
      | none => none
      | some (k, v) => some (c :: k, v)

/-- The loop of `handle_hotplug_msg` over the strings after the first;
`subsystem` and `interface` are the two pointers, `none` when null. The result
is the value of `interface` at the label `found`, or `none` when the function
returns without reaching it. -/
def hotplug_scan : List (List Char) → Option (List Char) → Option (List Char) →
    Option (List Char)
  | [], _, _ => none
  | cur :: rest, subsystem, interface =>
    match split_key cur with
    | none => hotplug_scan rest subsystem interface
    | some (key, value) =>
      let is_interface := decide (key = "INTERFACE".toList)
      let is_subsystem := !is_interface && decide (key = "SUBSYSTEM".toList)
      let interface := if is_interface then some value else interface
      let subsystem := if is_subsystem then some value else subsystem
      if is_subsystem && decide (value ≠ "net".toList) then none
      else
        match subsystem, interface with
        | some _, some i => some i
        | _, _ => hotplug_scan rest subsystem interface

/-- Modelled from the spec: `device_get(name, false)` of `device.c`, which is
not among the sources: the device of that name, without creating one. -/
def device_get (devices : List device) (name : List Char) : Option device :=
  devices.find? (fun d => d.ifname.toList = name)

/-- Modelled from the spec: `device_set_present(dev, state)` of `device.c`,
which is not among the sources, on the device table: the device of that name
is marked present or absent. -/
def device_set_present : List device → String → Bool → List device
  | [], _, _ => []
  | d :: rest, name, state =>
    if d.ifname = name then { d with present := state } :: rest
    else d :: device_set_present rest name state

/-- `handle_hotplug_msg(data, size)`: the message is the list of its
NUL-terminated strings, `data` being the first; the result is the device table
after the call. -/
def handle_hotplug_msg (devices : List device) (msg : List (List Char)) : List device :=
  match msg with
  | [] => devices
  | data :: rest =>
    let add : Option Bool :=
      if starts_with "add@".toList data then some true
      else if starts_with "remove@".toList data then some false
      else none
    match add with
    | none => devices
    | some add =>
      match hotplug_scan rest none none with
      | none => devices
      | some interface =>
        match device_get devices interface with
        | none => devices
        | some dev =>
          if dev.type ≠ device_type.simple then devices
          else device_set_present devices dev.ifname add

/-! ## Kernel executor: sysctl, bridges and tunnels -/

/-- The `ioctl` requests of the bridge and tunnel functions. -/
inductive ioctl_cmd where
  | SIOCBRADDIF : ioctl_cmd
  | SIOCBRDELIF : ioctl_cmd
  | SIOCADDTUNNEL : ioctl_cmd
  | SIOCDELTUNNEL : ioctl_cmd
  | SIOCADD6RD : ioctl_cmd
deriving DecidableEq, Repr

/-- A system call of the executor: an `open` of a path for writing followed,
when it succeeds, by a `write` of the value, or an `ioctl` on the control
socket with the interface name put in its request. -/
inductive sys_op where
  | sysctl_write (path : String) (val : String) : sys_op
  | ioctl (cmd : ioctl_cmd) (ifr_name : String) : sys_op
deriving DecidableEq, Repr

/-- The expansion of a format with `%s` directives and one string argument
for the first of them. -/
def format_s : List Char → List Char → List Char
  | [], _ => []
  | [c], _ => [c]
  | c :: d :: rest, arg =>
    if c = '%' ∧ d = 's' then arg ++ rest
    else c :: format_s (d :: rest) arg

/-- `snprintf(buf, size, fmt, arg)` for a format with one `%s`: the string left
in `buf`, at most `size - 1` characters. -/
def snprintf (size : Nat) (fmt : String) (arg : String) : String :=
  String.mk ((format_s fmt.toList arg.toList).take (size - 1))

/-- `system_set_sysctl(path, val)`. -/
def system_set_sysctl (path : String) (val : String) : List sys_op :=
  [sys_op.sysctl_write path val]

/-- `system_set_dev_sysctl(path, device, val)`; `dev_buf` has 256 bytes. -/
def system_set_dev_sysctl (path : String) (_device : String) (val : String) : List sys_op :=
  let dev_buf := snprintf 256 path val
  system_set_sysctl dev_buf val

/-- `system_set_disable_ipv6(dev, val)`. -/
def system_set_disable_ipv6 (dev : device) (val : String) : List sys_op :=
  system_set_dev_sysctl "/proc/sys/net/ipv6/conf/%s/disable_ipv6" dev.ifname val

/-- `system_bridge_if(bridge, dev, cmd, data)`: the request carries the name of
the bridge. -/
def system_bridge_if (bridge : String) (cmd : ioctl_cmd) : List sys_op :=
  [sys_op.ioctl cmd bridge]

/-- `system_bridge_addif(bridge, dev)`; `oldbr` is what `system_get_bridge`
returns for the device, `none` when null. -/
def system_bridge_addif (oldbr : Option String) (bridge dev : device) : List sys_op :=
  let ops := system_set_disable_ipv6 dev "1"
  if oldbr = some bridge.ifname then ops
  else ops ++ system_bridge_if bridge.ifname ioctl_cmd.SIOCBRADDIF

/-- `system_bridge_delif(bridge, dev)`. -/
def system_bridge_delif (bridge dev : device) : List sys_op :=
  system_set_disable_ipv6 dev "0" ++ system_bridge_if bridge.ifname ioctl_cmd.SIOCBRDELIF

/-- The table `tb` that `blobmsg_parse` fills under `tunnel_attr_list`. -/
structure tunnel_blob where
  type : Option String
  local_addr : Option String
  remote : Option String
  ttl : Option Nat
  prefix_6rd : Option String
  relay_prefix_6rd : Option String
deriving DecidableEq, Repr

/-- What `system_add_ip_tunnel` gets from outside this file.

* `inet_pton4 s`: whether `inet_pton(AF_INET, s, ..)` accepts the string.
* `parse_ip_and_netmask v6 s`: the mask it stores when it accepts the string,
  `none` when it returns 0.
* `add_tunnel`, `add_6rd`: the results of the `SIOCADDTUNNEL` and `SIOCADD6RD`
  requests. -/
structure tunnel_env where
  inet_pton4 : String → Bool
  parse_ip_and_netmask : Bool → String → Option Nat
  add_tunnel : Int
  add_6rd : Int

/-- `-EINVAL`. -/
def neg_EINVAL : Int := -22

/-- `parse_ipaddr(attr, addr)`, as a truth value. -/
def parse_ipaddr (env : tunnel_env) (attr : Option String) : Bool :=
  match attr with
  | none => true
  | some s => env.inet_pton4 s

/-- `system_del_ip_tunnel(name)`. -/
def system_del_ip_tunnel (name : String) : List sys_op :=
  [sys_op.ioctl ioctl_cmd.SIOCDELTUNNEL name]

/-- The 6rd part of `system_add_ip_tunnel`, lines 1068-1091, entered with the
tunnel created: the value returned and the requests issued. -/
def add_ip_tunnel_6rd (env : tunnel_env) (name : String) (tb : tunnel_blob) : Int × List sys_op :=
  match tb.prefix_6rd with
  | none => (0, [])
  | some cur =>
    match env.parse_ip_and_netmask true cur with
    | none => (neg_EINVAL, [])
    | some mask =>
      if mask > 128 then (neg_EINVAL, [])
      else
        let relay_ok : Bool :=
          match tb.relay_prefix_6rd with
          | none => true
          | some cur =>
            match env.parse_ip_and_netmask false cur with
            | none => false
            | some mask => !decide (mask > 32)
        if !relay_ok then (neg_EINVAL, [])
        else if env.add_6rd < 0 then
          (-1, sys_op.ioctl ioctl_cmd.SIOCADD6RD name :: system_del_ip_tunnel name)
        else (0, [sys_op.ioctl ioctl_cmd.SIOCADD6RD name])

/-- `system_add_ip_tunnel(name, attr)`: the value returned and the requests
issued, in order. -/
def system_add_ip_tunnel (env : tunnel_env) (name : String) (tb : tunnel_blob) :
    Int × List sys_op :=
  let ops := system_del_ip_tunnel name
  match tb.type with
  | none => (neg_EINVAL, ops)
  | some str =>
    let is_sit := decide (str = "sit")
    if !is_sit then (neg_EINVAL, ops)
    else
      let base := "sit0"
      if !parse_ipaddr env tb.local_addr then (neg_EINVAL, ops)
      else if !parse_ipaddr env tb.remote then (neg_EINVAL, ops)
      else if (match tb.ttl with | some val => decide (val % 2 ^ 32 > 255) | none => false) then
        (neg_EINVAL, ops)
      else
        let ops := ops ++ [sys_op.ioctl ioctl_cmd.SIOCADDTUNNEL base]
        if env.add_tunnel < 0 then (-1, ops)
        else
          let r := add_ip_tunnel_6rd env name tb
          (r.1, ops ++ r.2)

/-! ## Scenario data for the executor and the event reader -/

/-- An enabled address `192.168.7.2/30` carrying the EXTERNAL flag. -/
def ext_addr : device_addr :=
  { enabled := true, flags := { DEVADDR_INET4 with external := true }, mask := 30,
    addr := ipv4 192 168 7 2, broadcast := 0xC0A80703, point_to_point := 0 }

/-- An enabled route `10.1.0.0/16 via 192.168.1.9` carrying the EXTERNAL flag. -/
def ext_route : device_route :=
  { iface := some "wan", enabled := true, flags := { DEVADDR_INET4 with external := true },
    mask := 16, addr := ipv4 10 1 0 0, nexthop := ipv4 192 168 1 9, mtu := 0, metric := 10 }

/-- A device `eth0` with interface index 3. -/
def dev_eth0 : device :=
  { ifname := "eth0", ifindex := 3, type := device_type.simple, present := false,
    external := false }

/-- A bridge device `br0`. -/
def dev_br0 : device :=
  { ifname := "br0", ifindex := 7, type := device_type.bridge, present := true,
    external := false }

/-- A tunnel blob `{type: "sit", 6rd-prefix: "bogus"}` and one with a prefix
the parser below accepts. -/
def blob_6rd_bad : tunnel_blob :=
  { type := some "sit", local_addr := none, remote := none, ttl := none,
    prefix_6rd := some "bogus", relay_prefix_6rd := none }

/-- A tunnel blob `{type: "sit", 6rd-prefix: "2001:db8::/32"}`. -/
def blob_6rd_good : tunnel_blob :=
  { type := some "sit", local_addr := none, remote := none, ttl := none,
    prefix_6rd := some "2001:db8::/32", relay_prefix_6rd := none }

/-- An environment in which every request succeeds and the prefix parser
accepts `2001:db8::/32` only. -/
def env_ok : tunnel_env :=
  { inet_pton4 := fun _ => true,
    parse_ip_and_netmask := fun _ s => if s = "2001:db8::/32" then some 32 else none,
    add_tunnel := 0, add_6rd := 0 }

/-- The values of the `key=value` strings of a message that carry the given
key, in the order of the message. -/
def msg_values (key : List Char) (items : List (List Char)) : List (List Char) :=
  items.filterMap (fun s =>
    match split_key s with
    | some (k, v) => if k = key then some v else none
    | none => none)

/-- The uevent of scenario S5 for `eth0`, with the given first string. -/
def uevent_eth0 (first : String) : List (List Char) :=
  [first.toList, "ACTION=add".toList, "SUBSYSTEM=net".toList, "INTERFACE=eth0".toList,
   "SEQNUM=1180".toList]

/-! ## Byte offsets touched by `clear_if_addr` -/

/-- The byte offsets, relative to `a`, that `clear_if_addr(a, mask)` reads or
writes, in program order: the range of the `memset`, when it is executed, and
the index `m_bytes - 1` of the last statement, `m_bytes` being an `int`. -/
def clear_if_addr_offsets (pf : platform) (mask : Nat) : List Int :=
  let m_bytes : Int := ((mask + 7) / 8 : Nat)
  let sizeof_a : Int := (pf.sizeof_ptr : Nat)
  let set : List Int :=
    if m_bytes < sizeof_a then
      (List.range (pf.sizeof_ptr - (mask + 7) / 8)).map (fun k => m_bytes + ((k : Nat) : Int))
    else []
  set ++ [m_bytes - 1]

/-! ## Scenario data for the resolver on IPv6 -/

/-- The bytes of `2001:db8::2`. -/
def dest6_bytes : if_addr := [0x20, 0x01, 0x0d, 0xb8, 0, 0, 0, 0, 0, 0, 0, 0, 0, 0, 0, 2]

/-- The destination `10.0.0.50` in a union whose last byte the caller left
non-zero. -/
def dest4_dirty : if_addr := [10, 0, 0, 50, 0, 0, 0, 0, 0, 0, 0, 0, 0, 0, 0, 7]

/-- Interface `A` holding the enabled address `2001:db8::1/64`. -/
def iface_A6 : interface :=
  { name := "A", metric := 0, l3_dev := "eth0",
    proto_ip := { ip_empty with addr := [{ addr6 with enabled := true }] },
    config_ip := ip_empty }

/-- The enabled default route `::/0 via fe80::1` of interface `R`. -/
def route6_default : device_route :=
  { iface := some "R", enabled := true, flags := DEVADDR_INET6, mask := 0,
    addr := if_addr_zero,
    nexthop := [0xfe, 0x80, 0, 0, 0, 0, 0, 0, 0, 0, 0, 0, 0, 0, 0, 1], mtu := 0, metric := 0 }

/-- The enabled route `2001:db8::/32 via fe80::1` of interface `R`. -/
def route6_net : device_route :=
  { iface := some "R", enabled := true, flags := DEVADDR_INET6, mask := 32,
    addr := [0x20, 0x01, 0x0d, 0xb8, 0, 0, 0, 0, 0, 0, 0, 0, 0, 0, 0, 0],
    nexthop := [0xfe, 0x80, 0, 0, 0, 0, 0, 0, 0, 0, 0, 0, 0, 0, 0, 1], mtu := 0, metric := 0 }

/-- Interface `R`: no address, the routes `route6_net` and `route6_default`. -/
def iface_R6 : interface :=
  { name := "R", metric := 0, l3_dev := "eth2",
    proto_ip := { ip_empty with route := [route6_net, route6_default] },
    config_ip := ip_empty }

end Netifd

/-! ## Theorems -/

namespace Netifd

/-! ### Byte buffers and prefixes -/

theorem memset_length (l : List Nat) (off c n : Nat) : (memset l off c n).length = l.length := by
  induction l generalizing off n with
  | nil => simp [memset]
  | cons x xs ih =>
    cases off with
    | zero => cases n <;> simp [memset, ih]
    | succ k => simp [memset, ih]

theorem memset_getD (l : List Nat) (off c n j : Nat) :
    (memset l off c n).getD j 0 =
      if off ≤ j ∧ j < off + n ∧ j < l.length then c else l.getD j 0 := by
  induction l generalizing off n j with
  | nil => simp [memset]
  | cons x xs ih =>
    cases off with
    | zero =>
      cases n with
      | zero => simp [memset]
      | succ m =>
        cases j with
        | zero => simp [memset]
        | succ i =>
          simp only [memset, List.getD_cons_succ, ih, List.length_cons]
          congr 1
          simp only [eq_iff_iff]
          omega
    | succ k =>
      cases j with
      | zero => simp [memset]
      | succ i =>
        simp only [memset, List.getD_cons_succ, ih, List.length_cons]
        congr 1
        simp only [eq_iff_iff]
        omega

theorem and_byte_length (l : List Nat) (i v : Nat) : (and_byte l i v).length = l.length := by
  induction l generalizing i with
  | nil => simp [and_byte]
  | cons x xs ih => cases i <;> simp [and_byte, ih]

theorem and_byte_getD (l : List Nat) (i v j : Nat) :
    (and_byte l i v).getD j 0 =
      if j = i ∧ j < l.length then (l.getD j 0 &&& v) % 256 else l.getD j 0 := by
  induction l generalizing i j with
  | nil => simp [and_byte]
  | cons x xs ih =>
    cases i with
    | zero =>
      cases j with
      | zero => simp [and_byte]
      | succ k => simp [and_byte]
    | succ m =>
      cases j with
      | zero => simp [and_byte]
      | succ k =>
        simp only [and_byte, List.getD_cons_succ, ih, List.length_cons]
        congr 1
        simp only [eq_iff_iff]
        omega

theorem list_ext_getD (l1 l2 : List Nat) (hlen : l1.length = l2.length)
    (h : ∀ j, j < l1.length → l1.getD j 0 = l2.getD j 0) : l1 = l2 := by
  apply List.ext_getElem hlen
  intro j h1 h2
  have := h j h1
  rwa [List.getD_eq_getElem l1 0 h1, List.getD_eq_getElem l2 0 h2] at this

set_option maxRecDepth 100000 in
theorem keep_bits_eq : ∀ r, r < 9 → ∀ b, b < 256 →
    keep_bits b r =
      if r = 0 then 0 else (b &&& (0xFFFFFFFF - ((1 <<< (8 - r)) - 1) % 256)) % 256 := by
  decide

theorem keep_bits_ge (b r : Nat) (hr : 8 ≤ r) : keep_bits b r = keep_bits b 8 := by
  have h0 : 0 < r := by omega
  have h1 : 1 < r := by omega
  have h2 : 2 < r := by omega
  have h3 : 3 < r := by omega
  have h4 : 4 < r := by omega
  have h5 : 5 < r := by omega
  have h6 : 6 < r := by omega
  have h7 : 7 < r := by omega
  have hrange : List.range 8 = [0, 1, 2, 3, 4, 5, 6, 7] := by decide
  simp [keep_bits, hrange, h0, h1, h2, h3, h4, h5, h6, h7]

theorem keep_bits_full (b r : Nat) (hb : b < 256) (hr : 8 ≤ r) : keep_bits b r = b := by
  rw [keep_bits_ge b r hr, keep_bits_eq 8 (by decide) b hb]
  have : b &&& 4294967295 = b := by
    have h := Nat.and_pow_two_sub_one_eq_mod b 32
    have hlt : b % 2 ^ 32 = b := Nat.mod_eq_of_lt (by omega)
    rw [hlt] at h
    simpa using h
  simp [this, Nat.mod_eq_of_lt hb]

theorem keep_bits_zero (b : Nat) : keep_bits b 0 = 0 := by
  have hrange : List.range 8 = [0, 1, 2, 3, 4, 5, 6, 7] := by decide
  simp [keep_bits, hrange]

theorem zero_from_length (a : if_addr) (m : Nat) : (zero_from a m).length = a.length := by
  simp [zero_from]

theorem zero_from_getD (a : if_addr) (m j : Nat) (hj : j < a.length) :
    (zero_from a m).getD j 0 = keep_bits (a.getD j 0) (m - 8 * j) := by
  have hrange : List.range 8 = [0, 1, 2, 3, 4, 5, 6, 7] := by decide
  have hd : ∀ k, k < 8 → (8 * j + k) / 8 = j := by intro k hk; omega
  have hm : ∀ k, k < 8 → (8 * j + k) % 8 = k := by intro k hk; omega
  have hc : ∀ k, (8 * j + k < m) = (k < m - 8 * j) := by
    intro k; simp only [eq_iff_iff]; omega
  simp only [zero_from, keep_bits, hrange, List.getD_eq_getElem?_getD, List.getElem?_map,
    List.getElem?_range hj, Option.map_some', Option.getD_some, List.foldl_cons, List.foldl_nil,
    addr_bit, hc]
  simp only [Nat.add_zero, hd 1 (by decide), hd 2 (by decide), hd 3 (by decide), hd 4 (by decide),
    hd 5 (by decide), hd 6 (by decide), hd 7 (by decide), hm 1 (by decide), hm 2 (by decide),
    hm 3 (by decide), hm 4 (by decide), hm 5 (by decide), hm 6 (by decide), hm 7 (by decide),
    Nat.mul_div_cancel_left j (by decide : 0 < 8), Nat.mul_mod_right]

theorem clear_if_addr_length (pf : platform) (a : if_addr) (m : Nat) :
    (clear_if_addr pf a m).length = a.length := by
  unfold clear_if_addr
  simp only
  split <;> split <;> simp [and_byte_length, memset_length]

theorem clear_if_addr_getD (pf : platform) (a : if_addr) (m j : Nat) (hj : j < a.length) :
    (clear_if_addr pf a m).getD j 0 =
      if j + 1 = (m + 7) / 8 then
        (a.getD j 0 &&& (0xFFFFFFFF - ((1 <<< ((m + 7) / 8 * 8 - m)) - 1) % 256)) % 256
      else if (m + 7) / 8 ≤ j ∧ j < pf.sizeof_ptr then 0
      else a.getD j 0 := by
  unfold clear_if_addr
  simp only
  by_cases h0 : (m + 7) / 8 = 0
  · by_cases hs : (m + 7) / 8 < pf.sizeof_ptr
    · rw [if_pos hs, if_pos h0, memset_getD]
      have h1 : ¬ (j + 1 = (m + 7) / 8) := by omega
      rw [if_neg h1]
      congr 1
      simp only [eq_iff_iff]
      omega
    · rw [if_neg hs, if_pos h0]
      have h1 : ¬ (j + 1 = (m + 7) / 8) := by omega
      have h2 : ¬ ((m + 7) / 8 ≤ j ∧ j < pf.sizeof_ptr) := by omega
      rw [if_neg h1, if_neg h2]
  · by_cases hs : (m + 7) / 8 < pf.sizeof_ptr
    · rw [if_pos hs, if_neg h0, and_byte_getD, memset_getD, memset_length]
      by_cases h1 : j + 1 = (m + 7) / 8
      · have h2 : j = (m + 7) / 8 - 1 ∧ j < a.length := by omega
        have h3 : ¬ ((m + 7) / 8 ≤ j ∧ j < (m + 7) / 8 + (pf.sizeof_ptr - (m + 7) / 8) ∧
            j < a.length) := by omega
        rw [if_pos h2, if_pos h1, if_neg h3]
      · have h2 : ¬ (j = (m + 7) / 8 - 1 ∧ j < a.length) := by omega
        rw [if_neg h2, if_neg h1]
        congr 1
        simp only [eq_iff_iff]
        omega
    · rw [if_neg hs, if_neg h0, and_byte_getD]
      by_cases h1 : j + 1 = (m + 7) / 8
      · have h2 : j = (m + 7) / 8 - 1 ∧ j < a.length := by omega
        rw [if_pos h2, if_pos h1]
      · have h2 : ¬ (j = (m + 7) / 8 - 1 ∧ j < a.length) := by omega
        have h3 : ¬ ((m + 7) / 8 ≤ j ∧ j < pf.sizeof_ptr) := by omega
        rw [if_neg h2, if_neg h1, if_neg h3]

/-- Byte `j` of the result of `clear_if_addr`: the byte of the zeroed address
below `max(⌈mask/8⌉, sizeof(a))`, the byte of the argument from there on. -/
theorem clear_if_addr_byte (pf : platform) (a : if_addr) (m j : Nat) (hj : j < a.length)
    (hb : a.getD j 0 < 256) :
    (clear_if_addr pf a m).getD j 0 =
      if (m + 7) / 8 ≤ j ∧ pf.sizeof_ptr ≤ j then a.getD j 0 else (zero_from a m).getD j 0 := by
  rw [clear_if_addr_getD pf a m j hj, zero_from_getD a m j hj]
  by_cases h1 : j + 1 = (m + 7) / 8
  · have h2 : ¬ ((m + 7) / 8 ≤ j ∧ pf.sizeof_ptr ≤ j) := by omega
    have hr : m - 8 * j < 9 := by omega
    have hr0 : ¬ (m - 8 * j = 0) := by omega
    have hsh : (m + 7) / 8 * 8 - m = 8 - (m - 8 * j) := by omega
    rw [if_pos h1, if_neg h2, keep_bits_eq _ hr _ hb, if_neg hr0, hsh]
  · rw [if_neg h1]
    by_cases h3 : (m + 7) / 8 ≤ j
    · have hz : m - 8 * j = 0 := by omega
      rw [hz, keep_bits_zero]
      by_cases h4 : j < pf.sizeof_ptr
      · have h5 : ¬ ((m + 7) / 8 ≤ j ∧ pf.sizeof_ptr ≤ j) := by omega
        rw [if_pos ⟨h3, h4⟩, if_neg h5]
      · have h5 : (m + 7) / 8 ≤ j ∧ pf.sizeof_ptr ≤ j := by omega
        have h6 : ¬ ((m + 7) / 8 ≤ j ∧ j < pf.sizeof_ptr) := by omega
        rw [if_neg h6, if_pos h5]
    · have h5 : ¬ ((m + 7) / 8 ≤ j ∧ pf.sizeof_ptr ≤ j) := by omega
      have h6 : ¬ ((m + 7) / 8 ≤ j ∧ j < pf.sizeof_ptr) := by omega
      have hr : 8 ≤ m - 8 * j := by omega
      rw [if_neg h6, if_neg h5, keep_bits_full _ _ hb hr]

/-- What `clear_if_addr` computes: it zeroes the bits from `mask` on exactly
when the bytes it does not reach, those from `max(⌈mask/8⌉, sizeof(a))` on,
are zero already. -/
theorem clear_if_addr_eq_zero_from_iff (pf : platform) (a : if_addr) (m : Nat)
    (hb : ∀ j, j < a.length → a.getD j 0 < 256) :
    clear_if_addr pf a m = zero_from a m ↔
      ∀ j, j < a.length → (m + 7) / 8 ≤ j → pf.sizeof_ptr ≤ j → a.getD j 0 = 0 := by
  constructor
  · intro h j hj h1 h2
    have hc := clear_if_addr_byte pf a m j hj (hb j hj)
    rw [if_pos ⟨h1, h2⟩, h, zero_from_getD a m j hj] at hc
    have hz : m - 8 * j = 0 := by omega
    rw [hz, keep_bits_zero] at hc
    exact hc.symm
  · intro h
    apply list_ext_getD
    · rw [clear_if_addr_length, zero_from_length]
    · intro j hj
      rw [clear_if_addr_length] at hj
      rw [clear_if_addr_byte pf a m j hj (hb j hj)]
      by_cases hc : (m + 7) / 8 ≤ j ∧ pf.sizeof_ptr ≤ j
      · rw [if_pos hc, zero_from_getD a m j hj, h j hj hc.1 hc.2]
        have hz : m - 8 * j = 0 := by omega
        rw [hz, keep_bits_zero]
      · rw [if_neg hc]

/-- What `match_if_addr` decides: equality of the two addresses after zeroing
the bits from `mask` on, and equality of the bytes `clear_if_addr` does not
reach. -/
theorem match_if_addr_iff (pf : platform) (a1 a2 : if_addr) (m : Nat)
    (hlen : a1.length = a2.length)
    (hb1 : ∀ j, j < a1.length → a1.getD j 0 < 256)
    (hb2 : ∀ j, j < a2.length → a2.getD j 0 < 256) :
    match_if_addr pf a1 a2 m = true ↔
      zero_from a1 m = zero_from a2 m ∧
      ∀ j, j < a1.length → (m + 7) / 8 ≤ j → pf.sizeof_ptr ≤ j → a1.getD j 0 = a2.getD j 0 := by
  simp only [match_if_addr, decide_eq_true_eq]
  constructor
  · intro h
    have hbyte : ∀ j, j < a1.length →
        (if (m + 7) / 8 ≤ j ∧ pf.sizeof_ptr ≤ j then a1.getD j 0 else (zero_from a1 m).getD j 0) =
        (if (m + 7) / 8 ≤ j ∧ pf.sizeof_ptr ≤ j then a2.getD j 0
         else (zero_from a2 m).getD j 0) := by
      intro j hj
      rw [← clear_if_addr_byte pf a1 m j hj (hb1 j hj),
        ← clear_if_addr_byte pf a2 m j (hlen ▸ hj) (hb2 j (hlen ▸ hj)), h]
    constructor
    · apply list_ext_getD
      · rw [zero_from_length, zero_from_length, hlen]
      · intro j hj
        rw [zero_from_length] at hj
        by_cases hc : (m + 7) / 8 ≤ j ∧ pf.sizeof_ptr ≤ j
        · have hz : m - 8 * j = 0 := by omega
          rw [zero_from_getD a1 m j hj, zero_from_getD a2 m j (hlen ▸ hj), hz, keep_bits_zero,
            keep_bits_zero]
        · have := hbyte j hj
          rwa [if_neg hc, if_neg hc] at this
    · intro j hj h1 h2
      have := hbyte j hj
      rwa [if_pos ⟨h1, h2⟩, if_pos ⟨h1, h2⟩] at this
  · rintro ⟨hz, ht⟩
    apply list_ext_getD
    · rw [clear_if_addr_length, clear_if_addr_length, hlen]
    · intro j hj
      rw [clear_if_addr_length] at hj
      rw [clear_if_addr_byte pf a1 m j hj (hb1 j hj),
        clear_if_addr_byte pf a2 m j (hlen ▸ hj) (hb2 j (hlen ▸ hj))]
      by_cases hc : (m + 7) / 8 ≤ j ∧ pf.sizeof_ptr ≤ j
      · rw [if_pos hc, if_pos hc, ht j hj hc.1 hc.2]
      · rw [if_neg hc, if_neg hc, hz]

set_option maxRecDepth 100000 in
theorem keep_bits_testBit : ∀ r, r < 9 → ∀ b, b < 256 → ∀ k, k < 8 →
    (keep_bits b r).testBit (7 - k) = (decide (k < r) && b.testBit (7 - k)) := by
  decide

theorem keep_bits_eq_iff (b c r : Nat) (hb : b < 256) (hc : c < 256) :
    keep_bits b r = keep_bits c r ↔
      ∀ k, k < 8 → k < r → b.testBit (7 - k) = c.testBit (7 - k) := by
  constructor
  · intro h k hk hkr
    by_cases hr : r < 9
    · have h1 := keep_bits_testBit r hr b hb k hk
      have h2 := keep_bits_testBit r hr c hc k hk
      rw [h] at h1
      rw [h1] at h2
      simpa [hkr] using h2
    · have hr8 : 8 ≤ r := by omega
      rw [keep_bits_ge b r hr8, keep_bits_ge c r hr8] at h
      have h1 := keep_bits_testBit 8 (by decide) b hb k hk
      have h2 := keep_bits_testBit 8 (by decide) c hc k hk
      rw [h] at h1
      rw [h1] at h2
      simpa [hk] using h2
  · intro h
    have hrange : List.range 8 = [0, 1, 2, 3, 4, 5, 6, 7] := by decide
    have hk : ∀ k, k < 8 →
        ((k < r ∧ b.testBit (7 - k) = true) ↔ (k < r ∧ c.testBit (7 - k) = true)) := by
      intro k hk
      constructor
      · rintro ⟨h1, h2⟩
        exact ⟨h1, by rw [← h k hk h1]; exact h2⟩
      · rintro ⟨h1, h2⟩
        exact ⟨h1, by rw [h k hk h1]; exact h2⟩
    simp only [keep_bits, hrange, List.foldl_cons, List.foldl_nil, hk 0 (by decide),
      hk 1 (by decide), hk 2 (by decide), hk 3 (by decide), hk 4 (by decide), hk 5 (by decide),
      hk 6 (by decide), hk 7 (by decide)]

/-- Agreeing on the first `mask` bits is being equal after zeroing the bits
from `mask` on. -/
theorem agree_upto_iff_zero_from (a1 a2 : if_addr) (m : Nat) (hlen : a1.length = a2.length)
    (hb1 : ∀ j, j < a1.length → a1.getD j 0 < 256)
    (hb2 : ∀ j, j < a2.length → a2.getD j 0 < 256) :
    agree_upto a1 a2 m ↔ zero_from a1 m = zero_from a2 m := by
  constructor
  · intro h
    apply list_ext_getD
    · rw [zero_from_length, zero_from_length, hlen]
    · intro j hj
      rw [zero_from_length] at hj
      rw [zero_from_getD a1 m j hj, zero_from_getD a2 m j (hlen ▸ hj),
        keep_bits_eq_iff _ _ _ (hb1 j hj) (hb2 j (hlen ▸ hj))]
      intro k hk hkr
      have hi := h (8 * j + k) (by omega)
      have hd : (8 * j + k) / 8 = j := by omega
      have hm : (8 * j + k) % 8 = k := by omega
      simpa only [addr_bit, hd, hm] using hi
  · intro h i hi
    unfold addr_bit
    by_cases hj : i / 8 < a1.length
    · have hz : (zero_from a1 m).getD (i / 8) 0 = (zero_from a2 m).getD (i / 8) 0 := by rw [h]
      rw [zero_from_getD a1 m _ hj, zero_from_getD a2 m _ (hlen ▸ hj),
        keep_bits_eq_iff _ _ _ (hb1 _ hj) (hb2 _ (hlen ▸ hj))] at hz
      exact hz (i % 8) (Nat.mod_lt _ (by decide)) (by omega)
    · rw [List.getD_eq_default a1 0 (by omega), List.getD_eq_default a2 0 (by omega)]

/-- `match_if_addr` in the words of the specification: the addresses agree on
their first `mask` bits, and also on every byte from
`max(⌈mask/8⌉, sizeof(a))` on. -/
theorem match_if_addr_iff_agree (pf : platform) (a1 a2 : if_addr) (m : Nat)
    (hlen : a1.length = a2.length)
    (hb1 : ∀ j, j < a1.length → a1.getD j 0 < 256)
    (hb2 : ∀ j, j < a2.length → a2.getD j 0 < 256) :
    match_if_addr pf a1 a2 m = true ↔
      agree_upto a1 a2 m ∧
      ∀ j, j < a1.length → (m + 7) / 8 ≤ j → pf.sizeof_ptr ≤ j → a1.getD j 0 = a2.getD j 0 := by
  rw [match_if_addr_iff pf a1 a2 m hlen hb1 hb2, agree_upto_iff_zero_from a1 a2 m hlen hb1 hb2]

/-- For addresses held in the first four bytes of the union, the rest being
zero, and pointers of at least four bytes, `clear_if_addr` zeroes exactly the
bits from `mask` on. -/
theorem clear_if_addr_ipv4 (pf : platform) (a : if_addr) (m : Nat) (h4 : 4 ≤ pf.sizeof_ptr)
    (hb : ∀ j, j < a.length → a.getD j 0 < 256) (hz : ∀ j, 4 ≤ j → a.getD j 0 = 0) :
    clear_if_addr pf a m = zero_from a m :=
  (clear_if_addr_eq_zero_from_iff pf a m hb).2 (fun j _ _ hs => hz j (le_trans h4 hs))

/-- For addresses held in the first four bytes of the union, the rest being
zero, and pointers of at least four bytes, `match_if_addr` holds exactly when
the addresses agree on their first `mask` bits. -/
theorem match_if_addr_ipv4 (pf : platform) (a1 a2 : if_addr) (m : Nat) (h4 : 4 ≤ pf.sizeof_ptr)
    (hlen : a1.length = a2.length)
    (hb1 : ∀ j, j < a1.length → a1.getD j 0 < 256)
    (hb2 : ∀ j, j < a2.length → a2.getD j 0 < 256)
    (hz1 : ∀ j, 4 ≤ j → a1.getD j 0 = 0) (hz2 : ∀ j, 4 ≤ j → a2.getD j 0 = 0) :
    match_if_addr pf a1 a2 m = true ↔ agree_upto a1 a2 m := by
  rw [match_if_addr_iff_agree pf a1 a2 m hlen hb1 hb2]
  constructor
  · exact fun h => h.1
  · intro h
    refine ⟨h, fun j _ _ hs => ?_⟩
    rw [hz1 j (le_trans h4 hs), hz2 j (le_trans h4 hs)]

/-! ### Resolver loops -/

theorem find_ip_addr_target_loop_eq_any (pf : platform) (a : if_addr) (v6 : Bool)
    (l : List device_addr) :
    find_ip_addr_target_loop pf a v6 l = l.any (addr_passes pf a v6) := by
  induction l with
  | nil => rfl
  | cons x xs ih =>
    simp only [find_ip_addr_target_loop, List.any_cons, addr_passes, ih]
    cases x.enabled <;> cases v6 <;> cases x.flags.inet6 <;>
      cases match_if_addr pf x.addr a x.mask <;> simp

theorem find_addr_target_iff_passes (pf : platform) (i : interface) (a : if_addr) (v6 : Bool) :
    interface_ip_find_addr_target pf i a v6 = true ↔ iface_passes pf a v6 i := by
  simp only [interface_ip_find_addr_target, __find_ip_addr_target,
    find_ip_addr_target_loop_eq_any, iface_passes, Bool.or_eq_true, List.any_eq_true,
    List.mem_append]
  constructor
  · rintro (⟨x, hx, h⟩ | ⟨x, hx, h⟩)
    · exact ⟨x, Or.inl hx, h⟩
    · exact ⟨x, Or.inr hx, h⟩
  · rintro ⟨x, hx | hx, h⟩
    · exact Or.inl ⟨x, hx, h⟩
    · exact Or.inr ⟨x, hx, h⟩

theorem pick_route_append (res : Option device_route) (l1 l2 : List device_route) :
    pick_route res (l1 ++ l2) = pick_route (pick_route res l1) l2 := by
  induction l1 generalizing res with
  | nil => rfl
  | cons x xs ih => simpa [pick_route] using ih _

theorem find_ip_route_target_loop_eq_pick (pf : platform) (a : if_addr) (v6 : Bool)
    (l : List device_route) (res : Option device_route) :
    find_ip_route_target_loop pf a v6 l res = pick_route res (l.filter (route_passes pf a v6)) := by
  induction l generalizing res with
  | nil => rfl
  | cons x xs ih =>
    simp only [find_ip_route_target_loop, List.filter_cons, ih]
    cases h1 : x.enabled <;> cases h2 : x.flags.inet6 <;> cases h3 : v6 <;>
      cases h4 : match_if_addr pf x.addr a x.mask <;>
      cases h5 : route_replaces res x <;> simp [pick_route, route_passes, h1, h2, h3, h4, h5]

theorem find_route_target_eq_pick (pf : platform) (i : interface) (a : if_addr) (v6 : Bool)
    (res : Option device_route) :
    interface_ip_find_route_target pf i a v6 res =
      pick_route res ((i.proto_ip.route ++ i.config_ip.route).filter (route_passes pf a v6)) := by
  simp only [interface_ip_find_route_target, __find_ip_route_target,
    find_ip_route_target_loop_eq_pick, List.filter_append, pick_route_append]

theorem add_target_route_loop_none_passes (pf : platform) (dest : if_addr) (v6 : Bool)
    (route : device_route) (ifaces : List interface) (res : Option device_route)
    (hno : ∀ i ∈ ifaces, ¬ iface_passes pf dest v6 i) :
    add_target_route_loop pf dest v6 route ifaces res =
      add_target_route_finish route (pick_route res (passing_routes pf dest v6 ifaces)) := by
  induction ifaces generalizing res with
  | nil => rfl
  | cons i rest ih =>
    have hi : interface_ip_find_addr_target pf i dest v6 = false := by
      cases h : interface_ip_find_addr_target pf i dest v6 with
      | false => rfl
      | true => exact absurd ((find_addr_target_iff_passes pf i dest v6).1 h)
                  (hno i (List.mem_cons_self _ _))
    simp only [add_target_route_loop, hi, passing_routes, pick_route_append,
      find_route_target_eq_pick]
    exact ih _ (fun j hj => hno j (List.mem_cons_of_mem _ hj))

theorem add_target_route_loop_first_passes (pf : platform) (dest : if_addr) (v6 : Bool)
    (route : device_route) (pre : List interface) (i : interface) (post : List interface)
    (res : Option device_route)
    (hpre : ∀ j ∈ pre, ¬ iface_passes pf dest v6 j) (hi : iface_passes pf dest v6 i) :
    add_target_route_loop pf dest v6 route (pre ++ i :: post) res =
      target_result.added i.name { route with iface := some i.name } := by
  induction pre generalizing res with
  | nil =>
    simp only [List.nil_append, add_target_route_loop,
      (find_addr_target_iff_passes pf i dest v6).2 hi, if_true]
  | cons j rest ih =>
    have hj : interface_ip_find_addr_target pf j dest v6 = false := by
      cases h : interface_ip_find_addr_target pf j dest v6 with
      | false => rfl
      | true => exact absurd ((find_addr_target_iff_passes pf j dest v6).1 h)
                  (hpre j (List.mem_cons_self _ _))
    simp only [List.cons_append, add_target_route_loop, hj]
    exact ih _ (fun k hk => hpre k (List.mem_cons_of_mem _ hk))

theorem pick_route_some (r0 : device_route) (l : List device_route) :
    ∃ r, pick_route (some r0) l = some r ∧
      ((r = r0 ∧ ∀ x ∈ l, r0.mask ≤ x.mask) ∨
       (∃ pre post, l = pre ++ r :: post ∧ r.mask < r0.mask ∧
          (∀ x ∈ pre, r.mask < x.mask) ∧ ∀ x ∈ post, r.mask ≤ x.mask)) := by
  induction l generalizing r0 with
  | nil => exact ⟨r0, rfl, Or.inl ⟨rfl, by simp⟩⟩
  | cons x xs ih =>
    by_cases hx : x.mask < r0.mask
    · obtain ⟨r, hr, h⟩ := ih x
      refine ⟨r, ?_, Or.inr ?_⟩
      · simpa [pick_route, route_replaces, hx] using hr
      · rcases h with ⟨rfl, hall⟩ | ⟨pre, post, rfl, hlt, hp, hq⟩
        · exact ⟨[], xs, rfl, hx, by simp, hall⟩
        · refine ⟨x :: pre, post, rfl, lt_trans hlt hx, ?_, hq⟩
          intro y hy
          rcases List.mem_cons.1 hy with rfl | hy
          · exact hlt
          · exact hp y hy
    · obtain ⟨r, hr, h⟩ := ih r0
      refine ⟨r, ?_, ?_⟩
      · simpa [pick_route, route_replaces, hx] using hr
      · rcases h with ⟨rfl, hall⟩ | ⟨pre, post, rfl, hlt, hp, hq⟩
        · refine Or.inl ⟨rfl, ?_⟩
          intro y hy
          rcases List.mem_cons.1 hy with rfl | hy
          · exact Nat.le_of_not_lt hx
          · exact hall y hy
        · refine Or.inr ⟨x :: pre, post, rfl, hlt, ?_, hq⟩
          intro y hy
          rcases List.mem_cons.1 hy with rfl | hy
          · exact lt_of_lt_of_le hlt (Nat.le_of_not_lt hx)
          · exact hp y hy

theorem pick_route_none (l : List device_route) (hne : l ≠ []) :
    ∃ pre r post, l = pre ++ r :: post ∧ (∀ x ∈ pre, r.mask < x.mask) ∧
      (∀ x ∈ post, r.mask ≤ x.mask) ∧ pick_route none l = some r := by
  cases l with
  | nil => exact absurd rfl hne
  | cons x xs =>
    obtain ⟨r, hr, h⟩ := pick_route_some x xs
    have hpick : pick_route none (x :: xs) = some r := by
      simpa [pick_route, route_replaces] using hr
    rcases h with ⟨rfl, hall⟩ | ⟨pre, post, rfl, hlt, hp, hq⟩
    · exact ⟨[], r, xs, rfl, by simp, hall, hpick⟩
    · refine ⟨x :: pre, r, post, rfl, ?_, hq, hpick⟩
      intro y hy
      rcases List.mem_cons.1 hy with rfl | hy
      · exact hlt
      · exact hp y hy

/-! ### Address match -/

/-- C1 (the code departs from it): `::` and `::1` agree on their first 64
bits, and are equal once every bit from position 64 on is zeroed, yet
`match_if_addr` reports a mismatch for mask 64, with 8-byte and with 4-byte
pointers: `clear_if_addr` stops clearing at byte `sizeof(a)`. -/
theorem match_if_addr_misses_low_bytes :
    agree_upto if_addr_zero addr_low_one 64 ∧
    zero_from if_addr_zero 64 = zero_from addr_low_one 64 ∧
    match_if_addr x86_64 if_addr_zero addr_low_one 64 = false ∧
    match_if_addr mips32 if_addr_zero addr_low_one 64 = false := by
  decide

/-! ### Host-route resolver -/

theorem host_route_of_zero (dest : if_addr) (v6 : Bool) (hlen : dest.length = 16)
    (n : String) (nh : if_addr) (mtu metric : Nat) :
    { iface := some n, enabled := false,
      flags := if v6 then DEVADDR_INET6 else DEVADDR_INET4,
      mask := if v6 then 128 else 32,
      addr := memcpy if_addr_zero dest (if v6 then 16 else 4),
      nexthop := nh, mtu := mtu, metric := metric : device_route } =
    host_route dest v6 n nh mtu metric := by
  cases v6
  · simp [host_route, memcpy, if_addr_zero]
  · have h : List.take 16 dest = dest := List.take_of_length_le (le_of_eq hlen)
    simp [host_route, memcpy, if_addr_zero, h]

/-- The control flow of the resolver on an address hit: when some interface
has an entry that passes the tests of `__find_ip_addr_target`, the resolver
returns the first such interface in iteration order, whatever routes the
interfaces before it carry, and inserts into its `host_routes` one route: mask
32 or 128, address the destination, nexthop all zero. -/
theorem add_target_route_first_passing (pf : platform) (pre : List interface) (i : interface)
    (post : List interface) (dest : if_addr) (v6 : Bool) (hlen : dest.length = 16)
    (hpre : ∀ j ∈ pre, ¬ iface_passes pf dest v6 j) (hi : iface_passes pf dest v6 i) :
    interface_ip_add_target_route pf (pre ++ i :: post) dest v6 =
      target_result.added i.name (host_route dest v6 i.name if_addr_zero 0 0) := by
  unfold interface_ip_add_target_route
  rw [add_target_route_loop_first_passes pf dest v6 _ pre i post none hpre hi]
  simp only [device_route_zero]
  rw [host_route_of_zero dest v6 hlen]

theorem add_target_route_first_passing_example :
    interface_ip_add_target_route mips32 ([iface_B_route] ++ iface_A_addr :: [iface_A_route])
        (ipv4 10 0 0 50) false =
      target_result.added "A" (host_route (ipv4 10 0 0 50) false "A" if_addr_zero 0 0) :=
  add_target_route_first_passing mips32 [iface_B_route] iface_A_addr [iface_A_route]
    (ipv4 10 0 0 50) false (by decide) (by decide) (by decide)

/-- The control flow of the resolver without address hit: when no interface
has an entry that passes the tests of `__find_ip_addr_target`, let `P` be the
routes that pass the tests of `__find_ip_route_target`, in iteration order. If
`P` is empty the resolver returns null and inserts nothing. Otherwise `P`
splits around a route `r` whose mask is strictly smaller than every mask
before it and at most every mask after it (smallest mask, first found winning
ties); the resolver returns `r`'s interface and inserts into its `host_routes`
the route with mask 32 or 128, address the destination, and `r`'s nexthop, mtu
and metric; a selected route whose interface pointer is null makes the
resolver dereference it. -/
theorem add_target_route_best_passing (pf : platform) (ifaces : List interface) (dest : if_addr)
    (v6 : Bool) (hlen : dest.length = 16) (hno : ∀ i ∈ ifaces, ¬ iface_passes pf dest v6 i) :
    (passing_routes pf dest v6 ifaces = [] →
      interface_ip_add_target_route pf ifaces dest v6 = target_result.null) ∧
    (passing_routes pf dest v6 ifaces ≠ [] →
      ∃ pre r post, passing_routes pf dest v6 ifaces = pre ++ r :: post ∧
        (∀ x ∈ pre, r.mask < x.mask) ∧ (∀ x ∈ post, r.mask ≤ x.mask) ∧
        interface_ip_add_target_route pf ifaces dest v6 =
          match r.iface with
          | some n => target_result.added n (host_route dest v6 n r.nexthop r.mtu r.metric)
          | none => target_result.fault) := by
  unfold interface_ip_add_target_route
  rw [add_target_route_loop_none_passes pf dest v6 _ ifaces none hno]
  constructor
  · intro hM
    rw [hM]
    rfl
  · intro hM
    obtain ⟨pre, r, post, hsplit, hp, hq, hpick⟩ := pick_route_none _ hM
    refine ⟨pre, r, post, hsplit, hp, hq, ?_⟩
    rw [hpick]
    cases hn : r.iface with
    | none => simp only [add_target_route_finish, hn]
    | some n =>
      simp only [add_target_route_finish, hn, device_route_zero]
      rw [host_route_of_zero dest v6 hlen]

theorem add_target_route_best_passing_example :
    ((passing_routes mips32 (ipv4 10 0 0 50) false [iface_A_route, iface_B_route] = [] →
      interface_ip_add_target_route mips32 [iface_A_route, iface_B_route] (ipv4 10 0 0 50)
        false = target_result.null) ∧
    (passing_routes mips32 (ipv4 10 0 0 50) false [iface_A_route, iface_B_route] ≠ [] →
      ∃ pre r post, passing_routes mips32 (ipv4 10 0 0 50) false
          [iface_A_route, iface_B_route] = pre ++ r :: post ∧
        (∀ x ∈ pre, r.mask < x.mask) ∧ (∀ x ∈ post, r.mask ≤ x.mask) ∧
        interface_ip_add_target_route mips32 [iface_A_route, iface_B_route] (ipv4 10 0 0 50)
            false =
          match r.iface with
          | some n =>
            target_result.added n (host_route (ipv4 10 0 0 50) false n r.nexthop r.mtu r.metric)
          | none => target_result.fault)) ∧
    (passing_routes mips32 (ipv4 10 0 0 50) false [iface_A_route, iface_B_route]).map
        (fun r => (r.iface, r.mask)) = [(some "A", 0), (some "B", 0), (some "B", 8)] ∧
    interface_ip_add_target_route mips32 [iface_A_route, iface_B_route] (ipv4 10 0 0 50) false =
      target_result.added "A"
        (host_route (ipv4 10 0 0 50) false "A" (ipv4 192 168 1 1) 0 0) ∧
    interface_ip_add_target_route mips32 [] (ipv4 10 0 0 50) false = target_result.null :=
  ⟨add_target_route_best_passing mips32 [iface_A_route, iface_B_route] (ipv4 10 0 0 50) false
      (by decide) (by decide),
   by decide, by decide, by decide⟩

/-- C2 (the code departs from it): interface `A` holds the enabled address
`2001:db8::1/64`, which matches the destination `2001:db8::2` under its prefix
length, so the claim has the resolver return `A`; it returns null, with 8-byte
and with 4-byte pointers. The same happens for `10.0.0.1/24` and the
destination `10.0.0.50` when the caller's union has a non-zero byte after the
IPv4 address. -/
theorem add_target_route_misses_on_link :
    on_link dest6_bytes true iface_A6 ∧
    interface_ip_add_target_route x86_64 [iface_A6] dest6_bytes true = target_result.null ∧
    interface_ip_add_target_route mips32 [iface_A6] dest6_bytes true = target_result.null ∧
    on_link dest4_dirty false iface_A_addr ∧
    interface_ip_add_target_route x86_64 [iface_A_addr] dest4_dirty false =
      target_result.null := by
  decide

/-- C3 (the code departs from it): interface `R` has no address and the
enabled routes `2001:db8::/32` and `::/0`, both matching the destination
`2001:db8::2` under their masks, so `M` is not empty and the claim has the
resolver select `::/0` and return `R`; it returns null and inserts nothing,
with 8-byte and with 4-byte pointers. -/
theorem add_target_route_misses_route :
    (∀ i ∈ [iface_R6], ¬ on_link dest6_bytes true i) ∧
    matching_routes dest6_bytes true [iface_R6] = [route6_net, route6_default] ∧
    interface_ip_add_target_route x86_64 [iface_R6] dest6_bytes true = target_result.null ∧
    interface_ip_add_target_route mips32 [iface_R6] dest6_bytes true = target_result.null := by
  decide

theorem addr_passes_eq_hits_ipv4 (pf : platform) (h4 : 4 ≤ pf.sizeof_ptr) (dest : if_addr)
    (hd : ipv4_padded dest) (a : device_addr)
    (ha : a.flags.inet6 = false → ipv4_padded a.addr) :
    addr_passes pf dest false a = addr_hits dest false a := by
  unfold addr_passes addr_hits
  cases h6 : a.flags.inet6
  · obtain ⟨hl, hb, hz⟩ := ha h6
    obtain ⟨hl2, hb2, hz2⟩ := hd
    have hiff := match_if_addr_ipv4 pf a.addr dest a.mask h4 (by rw [hl, hl2]) hb hb2 hz hz2
    have hm : match_if_addr pf a.addr dest a.mask = decide (agree_upto a.addr dest a.mask) := by
      by_cases hP : agree_upto a.addr dest a.mask
      · rw [hiff.2 hP, decide_eq_true hP]
      · rw [decide_eq_false hP]
        cases hc : match_if_addr pf a.addr dest a.mask with
        | false => rfl
        | true => exact absurd (hiff.1 hc) hP
    rw [hm]
  · simp

theorem route_passes_eq_hits_ipv4 (pf : platform) (h4 : 4 ≤ pf.sizeof_ptr) (dest : if_addr)
    (hd : ipv4_padded dest) (r : device_route)
    (hr : r.flags.inet6 = false → ipv4_padded r.addr) :
    route_passes pf dest false r = route_hits dest false r := by
  unfold route_passes route_hits
  cases h6 : r.flags.inet6
  · obtain ⟨hl, hb, hz⟩ := hr h6
    obtain ⟨hl2, hb2, hz2⟩ := hd
    have hiff := match_if_addr_ipv4 pf r.addr dest r.mask h4 (by rw [hl, hl2]) hb hb2 hz hz2
    have hm : match_if_addr pf r.addr dest r.mask = decide (agree_upto r.addr dest r.mask) := by
      by_cases hP : agree_upto r.addr dest r.mask
      · rw [hiff.2 hP, decide_eq_true hP]
      · rw [decide_eq_false hP]
        cases hc : match_if_addr pf r.addr dest r.mask with
        | false => rfl
        | true => exact absurd (hiff.1 hc) hP
    rw [hm]
  · simp

theorem iface_passes_iff_on_link_ipv4 (pf : platform) (h4 : 4 ≤ pf.sizeof_ptr) (dest : if_addr)
    (hd : ipv4_padded dest) (i : interface)
    (hwf : ∀ a ∈ i.proto_ip.addr ++ i.config_ip.addr, a.flags.inet6 = false →
      ipv4_padded a.addr) :
    iface_passes pf dest false i ↔ on_link dest false i := by
  unfold iface_passes on_link
  constructor
  · rintro ⟨a, ha, h⟩
    exact ⟨a, ha, by rw [← addr_passes_eq_hits_ipv4 pf h4 dest hd a (hwf a ha)]; exact h⟩
  · rintro ⟨a, ha, h⟩
    exact ⟨a, ha, by rw [addr_passes_eq_hits_ipv4 pf h4 dest hd a (hwf a ha)]; exact h⟩

theorem passing_routes_eq_matching_ipv4 (pf : platform) (h4 : 4 ≤ pf.sizeof_ptr)
    (dest : if_addr) (hd : ipv4_padded dest) (ifaces : List interface)
    (hwf : ∀ i ∈ ifaces, ∀ r ∈ i.proto_ip.route ++ i.config_ip.route, r.flags.inet6 = false →
      ipv4_padded r.addr) :
    passing_routes pf dest false ifaces = matching_routes dest false ifaces := by
  induction ifaces with
  | nil => rfl
  | cons i rest ih =>
    have hf : (i.proto_ip.route ++ i.config_ip.route).filter (route_passes pf dest false) =
        (i.proto_ip.route ++ i.config_ip.route).filter (route_hits dest false) := by
      apply List.filter_congr
      intro r hr
      exact route_passes_eq_hits_ipv4 pf h4 dest hd r (hwf i (List.mem_cons_self _ _) r hr)
    simp only [passing_routes, matching_routes, hf]
    rw [ih (fun j hj => hwf j (List.mem_cons_of_mem _ hj))]

/-- What holds of the claim on an address hit: for IPv4, with pointers of at
least four bytes, a destination and IPv4 entries stored as four address bytes
and twelve zero bytes, the resolver returns the first interface, in iteration
order, with an enabled IPv4 address that agrees with the destination on its
prefix, and inserts the on-link host route there. -/
theorem add_target_route_on_link_ipv4 (pf : platform) (h4 : 4 ≤ pf.sizeof_ptr)
    (pre : List interface) (i : interface) (post : List interface) (dest : if_addr)
    (hd : ipv4_padded dest)
    (hwf : ∀ j ∈ pre ++ [i], ∀ a ∈ j.proto_ip.addr ++ j.config_ip.addr,
      a.flags.inet6 = false → ipv4_padded a.addr)
    (hpre : ∀ j ∈ pre, ¬ on_link dest false j) (hi : on_link dest false i) :
    interface_ip_add_target_route pf (pre ++ i :: post) dest false =
      target_result.added i.name (host_route dest false i.name if_addr_zero 0 0) := by
  apply add_target_route_first_passing pf pre i post dest false hd.1
  · intro j hj hc
    have hw := hwf j (List.mem_append_left _ hj)
    exact hpre j hj ((iface_passes_iff_on_link_ipv4 pf h4 dest hd j hw).1 hc)
  · have hw := hwf i (List.mem_append_right _ (List.mem_singleton_self i))
    exact (iface_passes_iff_on_link_ipv4 pf h4 dest hd i hw).2 hi

/-- What holds of the claim without address hit: for IPv4, with pointers of at
least four bytes, a destination and IPv4 entries stored as four address bytes
and twelve zero bytes, the resolver returns null when no enabled IPv4 route
agrees with the destination on its mask, and otherwise selects among those
routes the one with the smallest mask, the first found winning ties. -/
theorem add_target_route_via_route_ipv4 (pf : platform) (h4 : 4 ≤ pf.sizeof_ptr)
    (ifaces : List interface) (dest : if_addr) (hd : ipv4_padded dest)
    (hwa : ∀ j ∈ ifaces, ∀ a ∈ j.proto_ip.addr ++ j.config_ip.addr,
      a.flags.inet6 = false → ipv4_padded a.addr)
    (hwr : ∀ j ∈ ifaces, ∀ r ∈ j.proto_ip.route ++ j.config_ip.route,
      r.flags.inet6 = false → ipv4_padded r.addr)
    (hno : ∀ i ∈ ifaces, ¬ on_link dest false i) :
    (matching_routes dest false ifaces = [] →
      interface_ip_add_target_route pf ifaces dest false = target_result.null) ∧
    (matching_routes dest false ifaces ≠ [] →
      ∃ pre r post, matching_routes dest false ifaces = pre ++ r :: post ∧
        (∀ x ∈ pre, r.mask < x.mask) ∧ (∀ x ∈ post, r.mask ≤ x.mask) ∧
        interface_ip_add_target_route pf ifaces dest false =
          match r.iface with
          | some n => target_result.added n (host_route dest false n r.nexthop r.mtu r.metric)
          | none => target_result.fault) := by
  have hno' : ∀ i ∈ ifaces, ¬ iface_passes pf dest false i := by
    intro i hi hc
    exact hno i hi ((iface_passes_iff_on_link_ipv4 pf h4 dest hd i (hwa i hi)).1 hc)
  have h := add_target_route_best_passing pf ifaces dest false hd.1 hno'
  rw [passing_routes_eq_matching_ipv4 pf h4 dest hd ifaces hwr] at h
  exact h

/-! ### Address delta callback -/

/-- C5: with `a_new` and `a_old` both present, equal flags and, for IPv4, equal
broadcast once `a_new`'s broadcast has been derived, the address delta
callback issues no kernel operation and leaves `a_new.enabled` true. -/
theorem addr_delta_keep (pf : platform) (stack_old stack_new : device_route) (iface : interface)
    (n o : device_addr) (hflags : o.flags = n.flags)
    (hbc : n.flags.inet6 = false → (derive_broadcast pf n).broadcast = o.broadcast) :
    (interface_update_proto_addr pf stack_old stack_new iface (some n) (some o)).2 = [] ∧
    ∃ a, (interface_update_proto_addr pf stack_old stack_new iface (some n) (some o)).1 = some a ∧
      a.enabled = true := by
  have hf : (derive_broadcast pf n).flags = n.flags := by
    unfold derive_broadcast
    split <;> simp
  have hkeep : addr_keep (some (derive_broadcast pf n)) (some o) = true := by
    cases h6 : n.flags.inet6
    · simp [addr_keep, hf, hflags, h6, hbc h6]
    · simp [addr_keep, hf, hflags, h6]
  simp [interface_update_proto_addr, hkeep]

theorem addr_delta_keep_witness :
    (interface_update_proto_addr x86_64 device_route_zero device_route_zero iface_m10
        (some addr_10_0_0_1)
        (some { addr_10_0_0_1 with broadcast := 0x0A0000FF, enabled := true })).2 = [] ∧
    ∃ a, (interface_update_proto_addr x86_64 device_route_zero device_route_zero iface_m10
        (some addr_10_0_0_1)
        (some { addr_10_0_0_1 with broadcast := 0x0A0000FF, enabled := true })).1 = some a ∧
      a.enabled = true :=
  addr_delta_keep x86_64 device_route_zero device_route_zero iface_m10 addr_10_0_0_1
    { addr_10_0_0_1 with broadcast := 0x0A0000FF, enabled := true } (by decide) (by decide)

/-- For a prefix length below 32 the derived broadcast is
`addr | (0xFFFFFFFF >> mask)` on every platform; an entry with a broadcast, and
every IPv6 entry, keeps its broadcast field. -/
theorem derive_broadcast_below_32 (pf : platform) (n : device_addr) :
    (n.flags.inet6 = false → n.broadcast = 0 → n.mask < 32 →
      (derive_broadcast pf n).broadcast = in_addr_be n.addr ||| (0xFFFFFFFF >>> n.mask)) ∧
    (n.broadcast ≠ 0 → (derive_broadcast pf n).broadcast = n.broadcast) ∧
    (n.flags.inet6 = true → (derive_broadcast pf n).broadcast = n.broadcast) := by
  refine ⟨?_, ?_, ?_⟩
  · intro h4 hb hm
    simp [derive_broadcast, shr_u32, h4, hb, hm]
  · intro hb
    simp [derive_broadcast, hb]
  · intro h6
    simp [derive_broadcast, h6]

/-- C6 (the code departs from it): for `10.0.0.1/32` with no broadcast the
claim gives `10.0.0.1 | (0xFFFFFFFF >> 32) = 10.0.0.1`. The callback shifts a
32-bit value by 32, which C leaves undefined; where the shifter takes the
count modulo 32 the entry ends with broadcast `255.255.255.255`. -/
theorem broadcast_of_host_address :
    in_addr_be addr_host.addr ||| (0xFFFFFFFF >>> addr_host.mask) = 0x0A000001 ∧
    (interface_update_proto_addr x86_64 device_route_zero device_route_zero iface_m0
        (some addr_host) none).1 =
      some { addr_host with broadcast := 0xFFFFFFFF, enabled := true } ∧
    (interface_update_proto_addr mips32 device_route_zero device_route_zero iface_m0
        (some addr_host) none).1 =
      some { addr_host with broadcast := 0xFFFFFFFF, enabled := true } := by
  decide

/-! ### Subnet route -/

/-- C7 (the code departs from it): for `2001:db8::1/64` the subnet route handed
to the kernel still has address `2001:db8::1`: bit 127, beyond the mask, is
set, where the network prefix is `2001:db8::`. -/
theorem subnet_route_keeps_host_bits :
    interface_handle_subnet_route x86_64 device_route_zero iface_m10 addr6 false =
      [kernel_op.del_route "eth1"
         { device_route_zero with iface := some "wan", flags := DEVADDR_INET6, mask := 64,
                                  addr := addr6_bytes }] ∧
    interface_handle_subnet_route mips32 device_route_zero iface_m10 addr6 false =
      [kernel_op.del_route "eth1"
         { device_route_zero with iface := some "wan", flags := DEVADDR_INET6, mask := 64,
                                  addr := addr6_bytes }] ∧
    addr_bit addr6_bytes 127 = true ∧
    zero_from addr6_bytes 64 = [0x20, 0x01, 0x0d, 0xb8, 0, 0, 0, 0, 0, 0, 0, 0, 0, 0, 0, 0] := by
  decide

/-- For an IPv4 address, held in the first four bytes of the union with the
rest zero, and pointers of at least four bytes, the subnet route handed to the
kernel has the mask of the address and the address with the bits from the
mask on cleared. -/
theorem subnet_route_ipv4 (pf : platform) (stack : device_route) (iface : interface)
    (a : device_addr) (h4 : 4 ≤ pf.sizeof_ptr)
    (hb : ∀ j, j < a.addr.length → a.addr.getD j 0 < 256)
    (hz : ∀ j, 4 ≤ j → a.addr.getD j 0 = 0) :
    interface_handle_subnet_route pf stack iface a false =
      [kernel_op.del_route iface.l3_dev
         { stack with iface := some iface.name, flags := a.flags, mask := a.mask,
                      addr := zero_from a.addr a.mask }] := by
  simp [interface_handle_subnet_route, clear_if_addr_ipv4 pf a.addr a.mask h4 hb hz]

/-! ### Route delta callback -/

/-- C8: the route delta callback, with `keep` holding when both entries are
present and their nexthops are equal, and `effective_enabled = ip.enabled and
not (ip.no_defaultroute and mask = 0)`: `r_old` is deleted exactly when it is
present, not EXTERNAL, enabled and `keep` is false; `r_new` is added exactly
when it is present, not EXTERNAL, `keep` is false and `effective_enabled`
holds; the delete comes first; `r_new.enabled` ends as `effective_enabled`. -/
theorem route_delta_ops (ip : interface_ip_settings) (iface : interface) :
    (interface_update_proto_route ip iface none none).2 = [] ∧
    (∀ o : device_route,
      (interface_update_proto_route ip iface none (some o)).2 =
        if o.flags.external = false ∧ o.enabled = true then
          [kernel_op.del_route iface.l3_dev o]
        else []) ∧
    (∀ n : device_route,
      (interface_update_proto_route ip iface (some n) none).2 =
        (if n.flags.external = false ∧
            (ip.enabled = true ∧ ¬ (ip.no_defaultroute = true ∧ n.mask = 0)) then
          [kernel_op.add_route iface.l3_dev
            (if n.flags.metric = true then n else { n with metric := iface.metric })]
        else []) ∧
      ∃ r, (interface_update_proto_route ip iface (some n) none).1 = some r ∧
        (r.enabled = true ↔ (ip.enabled = true ∧ ¬ (ip.no_defaultroute = true ∧ n.mask = 0)))) ∧
    (∀ n o : device_route,
      (interface_update_proto_route ip iface (some n) (some o)).2 =
        (if o.flags.external = false ∧ o.enabled = true ∧ ¬ o.nexthop = n.nexthop then
          [kernel_op.del_route iface.l3_dev o]
        else []) ++
        (if n.flags.external = false ∧ ¬ o.nexthop = n.nexthop ∧
            (ip.enabled = true ∧ ¬ (ip.no_defaultroute = true ∧ n.mask = 0)) then
          [kernel_op.add_route iface.l3_dev
            (if n.flags.metric = true then n else { n with metric := iface.metric })]
        else []) ∧
      ∃ r, (interface_update_proto_route ip iface (some n) (some o)).1 = some r ∧
        (r.enabled = true ↔ (ip.enabled = true ∧ ¬ (ip.no_defaultroute = true ∧ n.mask = 0)))) := by
  refine ⟨by simp [interface_update_proto_route], ?_, ?_, ?_⟩
  · intro o
    cases hx : o.flags.external <;> cases he : o.enabled <;>
      simp [interface_update_proto_route, route_keep, hx, he]
  · intro n
    cases hx : n.flags.external <;> cases hm : n.flags.metric <;> cases hen : ip.enabled <;>
      cases hnd : ip.no_defaultroute <;> by_cases h0 : n.mask = 0 <;>
      simp [interface_update_proto_route, route_keep, enable_route, hx, hm, hen, hnd, h0]
  · intro n o
    cases hx : n.flags.external <;> cases hm : n.flags.metric <;> cases hen : ip.enabled <;>
      cases hnd : ip.no_defaultroute <;> by_cases h0 : n.mask = 0 <;>
      cases hox : o.flags.external <;> cases hoe : o.enabled <;>
      by_cases hk : o.nexthop = n.nexthop <;>
      simp [interface_update_proto_route, route_keep, enable_route, hx, hm, hen, hnd, h0, hox,
        hoe, hk]

/-- C9: with `no_defaultroute` set, a route with mask 0 ends with
`enabled = false` and no kernel route add is issued for it; a route with any
other mask gets the kernel operations and the `enabled` value it gets with
`no_defaultroute` clear. -/
theorem route_delta_default_gate (ip : interface_ip_settings) (iface : interface)
    (n : device_route) (node_old : Option device_route) (hnd : ip.no_defaultroute = true) :
    (n.mask = 0 →
      (∀ dev r, kernel_op.add_route dev r ∉
        (interface_update_proto_route ip iface (some n) node_old).2) ∧
      ∃ r, (interface_update_proto_route ip iface (some n) node_old).1 = some r ∧
        r.enabled = false) ∧
    (n.mask ≠ 0 →
      interface_update_proto_route ip iface (some n) node_old =
        interface_update_proto_route { ip with no_defaultroute := false } iface (some n)
          node_old) := by
  constructor
  · intro h0
    cases node_old with
    | none => simp [interface_update_proto_route, enable_route, hnd, h0]
    | some o =>
      by_cases hdel : (!o.flags.external && o.enabled && !route_keep (some n) (some o)) = true <;>
        simp [interface_update_proto_route, enable_route, hnd, h0, hdel]
  · intro h0
    simp [interface_update_proto_route, enable_route, hnd, h0]

theorem route_delta_default_gate_witness :
    ((∀ dev r, kernel_op.add_route dev r ∉
        (interface_update_proto_route { ip_empty with no_defaultroute := true } iface_m10
          (some route_default) none).2) ∧
      ∃ r, (interface_update_proto_route { ip_empty with no_defaultroute := true } iface_m10
          (some route_default) none).1 = some r ∧ r.enabled = false) ∧
    interface_update_proto_route { ip_empty with no_defaultroute := true } iface_m10
        (some route_net) (some route_net_old) =
      interface_update_proto_route
        { ({ ip_empty with no_defaultroute := true } : interface_ip_settings) with
          no_defaultroute := false } iface_m10 (some route_net) (some route_net_old) ∧
    interface_update_proto_route { ip_empty with no_defaultroute := true } iface_m10
        (some route_net) (some route_net_old) =
      (some { route_net with iface := some "wan", enabled := true, metric := 10 },
       [kernel_op.del_route "eth1" route_net_old,
        kernel_op.add_route "eth1" { route_net with metric := 10 }]) :=
  ⟨(route_delta_default_gate { ip_empty with no_defaultroute := true } iface_m10 route_default
      none (by decide)).1 (by decide),
   (route_delta_default_gate { ip_empty with no_defaultroute := true } iface_m10 route_net
      (some route_net_old) (by decide)).2 (by decide),
   by decide⟩

/-- C10: a route that `interface_ip_add_route` builds from a blob with a metric
attribute `M` has the METRIC flag and metric `M`, and still has metric `M`
after the route delta callback whatever the interface metric; a route without
the METRIC flag has the interface metric after the callback. -/
theorem route_metric_kept (ps : parsers) (interfaces : List interface) (iface : Option String)
    (tb : route_blob) (v6 : Bool) (M : Nat) (name : String) (layer : ip_layer)
    (r : device_route) (hM : tb.metric = some M) (hlt : M < 2 ^ 32)
    (hadd : interface_ip_add_route ps interfaces iface tb v6 = add_route_result.added name layer r) :
    (r.flags.metric = true ∧ r.metric = M ∧
      ∀ (ip : interface_ip_settings) (i : interface) (node_old : Option device_route),
        ∃ r', (interface_update_proto_route ip i (some r) node_old).1 = some r' ∧
          r'.metric = M) ∧
    (∀ (ip : interface_ip_settings) (i : interface) (n : device_route)
        (node_old : Option device_route), n.flags.metric = false →
        ∃ r', (interface_update_proto_route ip i (some n) node_old).1 = some r' ∧
          r'.metric = i.metric) := by
  have hb : build_route ps tb v6 = some r := by
    unfold interface_ip_add_route at hadd
    cases ht : add_route_target interfaces iface tb with
    | none => simp [ht] at hadd
    | some t =>
      cases hbr : build_route ps tb v6 with
      | none => simp [ht, hbr] at hadd
      | some r0 =>
        simp only [ht, hbr, add_route_result.added.injEq] at hadd
        rw [hadd.2.2]
  have hr : r.flags.metric = true ∧ r.metric = M := by
    unfold build_route at hb
    simp only [hM, Option.bind_eq_some] at hb
    obtain ⟨r1, -, r2, -, r3, -, hr⟩ := hb
    have hr := Option.some.inj hr
    subst hr
    have hmod : M % 2 ^ 32 = M := Nat.mod_eq_of_lt hlt
    cases tb.mtu <;> simpa using hlt
  refine ⟨⟨hr.1, hr.2, ?_⟩, ?_⟩
  · intro ip i node_old
    simp [interface_update_proto_route, hr.1, hr.2]
  · intro ip i n node_old hn
    simp [interface_update_proto_route, hn]

theorem route_metric_kept_witness :
    interface_ip_add_route parsers_sample [] (some "wan") blob_metric false =
      add_route_result.added "wan" ip_layer.proto_ip
        { route_net with metric := 7, flags := { DEVADDR_INET4 with metric := true } } ∧
    (({ route_net with metric := 7, flags := { DEVADDR_INET4 with metric := true } } :
          device_route).flags.metric = true ∧
      ({ route_net with metric := 7, flags := { DEVADDR_INET4 with metric := true } } :
          device_route).metric = 7 ∧
      ∀ (ip : interface_ip_settings) (i : interface) (node_old : Option device_route),
        ∃ r', (interface_update_proto_route ip i
            (some { route_net with metric := 7, flags := { DEVADDR_INET4 with metric := true } })
            node_old).1 = some r' ∧ r'.metric = 7) ∧
    (∀ (ip : interface_ip_settings) (i : interface) (n : device_route)
        (node_old : Option device_route), n.flags.metric = false →
        ∃ r', (interface_update_proto_route ip i (some n) node_old).1 = some r' ∧
          r'.metric = i.metric) :=
  ⟨by decide,
   route_metric_kept parsers_sample [] (some "wan") blob_metric false 7 "wan" ip_layer.proto_ip
     { route_net with metric := 7, flags := { DEVADDR_INET4 with metric := true } }
     (by decide) (by decide) (by decide)⟩

/-! ### Match symmetry and mask idempotence -/

/-- C16: `match_if_addr` does not depend on the order of its two addresses,
and every address matches itself, for every mask. -/
theorem match_if_addr_symm_refl (pf : platform) (a b : if_addr) (m : Nat) :
    match_if_addr pf a b m = match_if_addr pf b a m ∧ match_if_addr pf a a m = true := by
  constructor
  · simp only [match_if_addr]
    by_cases h : clear_if_addr pf a m = clear_if_addr pf b m
    · simp [h]
    · have h2 : ¬ clear_if_addr pf b m = clear_if_addr pf a m := fun e => h e.symm
      simp [h, h2]
  · simp [match_if_addr]

theorem and_byte_idem (x v : Nat) : ((x &&& v) % 256 &&& v) % 256 = (x &&& v) % 256 := by
  apply Nat.eq_of_testBit_eq
  intro i
  have h256 : (256 : Nat) = 2 ^ 8 := by norm_num
  rw [h256]
  simp only [Nat.testBit_mod_two_pow, Nat.testBit_and]
  cases decide (i < 8) <;> cases x.testBit i <;> cases v.testBit i <;> rfl

/-- C17: clearing twice with the same mask gives what clearing once gives. -/
theorem clear_if_addr_idem (pf : platform) (x : if_addr) (m : Nat) :
    clear_if_addr pf (clear_if_addr pf x m) m = clear_if_addr pf x m := by
  apply list_ext_getD
  · rw [clear_if_addr_length]
  · intro j hj
    rw [clear_if_addr_length] at hj
    have hj2 : j < x.length := by rwa [clear_if_addr_length] at hj
    rw [clear_if_addr_getD pf _ m j hj, clear_if_addr_getD pf x m j hj2]
    by_cases h1 : j + 1 = (m + 7) / 8
    · simp only [if_pos h1, and_byte_idem]
    · by_cases h2 : (m + 7) / 8 ≤ j ∧ j < pf.sizeof_ptr
      · simp only [if_neg h1, if_pos h2]
      · simp only [if_neg h1, if_neg h2]

/-! ### Enabling and disabling a layer -/

theorem set_enabled_addr_loop_eq (dev : String) (e : Bool) (l : List device_addr) :
    set_enabled_addr_loop dev e l =
      (l.map (fun a => { a with enabled := e }),
       l.filterMap (fun a =>
         if a.enabled = e then none
         else some (if e = true then kernel_op.add_address dev a
                    else kernel_op.del_address dev a))) := by
  induction l with
  | nil => rfl
  | cons a rest ih =>
    simp only [set_enabled_addr_loop, ih, List.map_cons, List.filterMap_cons]
    by_cases h : a.enabled = e
    · subst h
      simp
    · have hb : (a.enabled == e) = false := by simp [h]
      simp [hb, h]

theorem set_enabled_route_loop_eq (ip : interface_ip_settings) (iface : interface)
    (dev : String) (e nd : Bool) (hip : ip.enabled = e) (hnd : ip.no_defaultroute = nd)
    (l : List device_route) :
    (set_enabled_route_loop ip iface dev e l).1.map (fun x => (x.enabled, x.mask)) =
        l.map (fun x => (e && !(nd && x.mask == 0), x.mask)) ∧
    (set_enabled_route_loop ip iface dev e l).2 =
      l.filterMap (fun x =>
        if x.enabled = (e && !(nd && x.mask == 0)) then none
        else some (
          if (e && !(nd && x.mask == 0)) = true then
            kernel_op.add_route dev
              (if x.flags.metric = true then x else { x with metric := iface.metric })
          else kernel_op.del_route dev x)) := by
  induction l with
  | nil => exact ⟨rfl, rfl⟩
  | cons x rest ih =>
    obtain ⟨ih1, ih2⟩ := ih
    simp only [set_enabled_route_loop, List.map_cons, List.filterMap_cons, enable_route, hip, hnd]
    rw [ih2]
    cases e <;> cases nd <;> by_cases h0 : x.mask = 0 <;>
      cases hx : x.enabled <;> cases hm : x.flags.metric <;>
      simp [h0, hx] <;> simpa using ih1

/-- C11: after `interface_ip_set_enabled(ip, e)` on a layer whose interface has
an l3 device, `ip.enabled` is `e`, every address has `enabled = e`, every
route has `enabled = (e and not (no_defaultroute and mask = 0))`, and the
kernel operations are, in the order of the entries, one per entry whose
`enabled` changed (an add if it became true, a delete if it became false) and
none for the others. -/
theorem set_enabled_result (ip : interface_ip_settings) (iface : interface) (dev : String)
    (e : Bool) :
    (interface_ip_set_enabled ip iface (some dev) e).1.enabled = e ∧
    (interface_ip_set_enabled ip iface (some dev) e).1.no_defaultroute = ip.no_defaultroute ∧
    (interface_ip_set_enabled ip iface (some dev) e).1.addr =
      ip.addr.map (fun a => { a with enabled := e }) ∧
    (interface_ip_set_enabled ip iface (some dev) e).1.route.map (fun x => (x.enabled, x.mask)) =
      ip.route.map (fun x => (e && !(ip.no_defaultroute && x.mask == 0), x.mask)) ∧
    (interface_ip_set_enabled ip iface (some dev) e).2 =
      ip.addr.filterMap (fun a =>
        if a.enabled = e then none
        else some (if e = true then kernel_op.add_address dev a
                   else kernel_op.del_address dev a)) ++
      ip.route.filterMap (fun x =>
        if x.enabled = (e && !(ip.no_defaultroute && x.mask == 0)) then none
        else some (
          if (e && !(ip.no_defaultroute && x.mask == 0)) = true then
            kernel_op.add_route dev
              (if x.flags.metric = true then x else { x with metric := iface.metric })
          else kernel_op.del_route dev x)) := by
  have hr := set_enabled_route_loop_eq { ip with enabled := e } iface dev e ip.no_defaultroute
    rfl rfl ip.route
  refine ⟨rfl, rfl, ?_, ?_, ?_⟩
  · simp only [interface_ip_set_enabled, set_enabled_addr_loop_eq]
  · simpa only [interface_ip_set_enabled] using hr.1
  · simp only [interface_ip_set_enabled, set_enabled_addr_loop_eq, hr.2]

theorem set_enabled_result_witness :
    (interface_ip_set_enabled
        { ip_empty with no_defaultroute := true, route := [{ route_default with enabled := true }] }
        iface_m10 (some "eth1") true).2 =
      [kernel_op.del_route "eth1" { route_default with enabled := true }] ∧
    (interface_ip_set_enabled
        { ip_empty with no_defaultroute := true, route := [{ route_default with enabled := true }] }
        iface_m10 (some "eth1") true).1.route = [route_default] :=
  ⟨(set_enabled_result
      { ip_empty with no_defaultroute := true, route := [{ route_default with enabled := true }] }
      iface_m10 "eth1" true).2.2.2.2,
   by decide⟩

/-- C12 (the code departs from it): an enabled EXTERNAL address and an enabled
EXTERNAL route in a layer; `interface_ip_set_enabled(ip, false)` issues a
kernel delete for each. -/
theorem set_enabled_touches_external :
    ext_addr.flags.external = true ∧ ext_route.flags.external = true ∧
    (interface_ip_set_enabled { ip_empty with addr := [ext_addr], route := [ext_route] }
        iface_m10 (some "eth1") false).2 =
      [kernel_op.del_address "eth1" ext_addr, kernel_op.del_route "eth1" ext_route] := by
  decide

/-- The two delta callbacks issue no kernel operation for an EXTERNAL entry:
none at all when the entries handed to them are EXTERNAL. -/
theorem callbacks_skip_external (pf : platform) (stack_old stack_new : device_route)
    (ip : interface_ip_settings) (iface : interface) :
    (∀ n o : Option device_addr,
      (∀ a, n = some a → a.flags.external = true) →
      (∀ a, o = some a → a.flags.external = true) →
      (interface_update_proto_addr pf stack_old stack_new iface n o).2 = []) ∧
    (∀ n o : Option device_route,
      (∀ r, n = some r → r.flags.external = true) →
      (∀ r, o = some r → r.flags.external = true) →
      (interface_update_proto_route ip iface n o).2 = []) := by
  constructor
  · intro n o hn ho
    have hf : ∀ a : device_addr, (derive_broadcast pf a).flags = a.flags := by
      intro a
      unfold derive_broadcast
      split <;> simp
    cases n with
    | none =>
      cases o with
      | none => simp [interface_update_proto_addr]
      | some b => simp [interface_update_proto_addr, ho b rfl]
    | some a =>
      cases o with
      | none => simp [interface_update_proto_addr, hf, hn a rfl]
      | some b => simp [interface_update_proto_addr, hf, hn a rfl, ho b rfl]
  · intro n o hn ho
    cases n with
    | none =>
      cases o with
      | none => simp [interface_update_proto_route]
      | some b => simp [interface_update_proto_route, ho b rfl]
    | some a =>
      cases o with
      | none =>
        cases hm : a.flags.metric <;> simp [interface_update_proto_route, hn a rfl, hm]
      | some b =>
        cases hm : a.flags.metric <;> simp [interface_update_proto_route, hn a rfl, ho b rfl, hm]

/-! ### Kernel executor -/

/-- The nexthop of a route, read in the route's family, is not zero. -/
theorem have_gw_iff (route : device_route) (alen : Nat) :
    have_gw route alen = true ↔ ∃ b ∈ route.nexthop.take alen, b ≠ 0 := by
  simp [have_gw]

/-- C13: the message `system_rt` composes for a route with mask at most 128:
`dst_len` is the mask, the table is MAIN, the protocol is KERNEL with the
KERNEL flag and BOOT without, the type is UNICAST on add and 0 on delete, the
scope is NOWHERE on delete and otherwise UNIVERSE for a non-zero nexthop and
LINK for a zero one; `RTA_DST` is there exactly when the mask is positive,
`RTA_PRIORITY` exactly when the metric is, `RTA_GATEWAY` exactly when the
nexthop is non-zero, and `RTA_OIF` with the interface index of the device
always. -/
theorem system_rt_message (dev : device) (route : device_route) (cmd : route_cmd)
    (hmask : route.mask ≤ 128) :
    (system_rt dev route cmd).cmd = cmd ∧
    (system_rt dev route cmd).rtm.rtm_dst_len = route.mask ∧
    (system_rt dev route cmd).rtm.rtm_table = rt_table.RT_TABLE_MAIN ∧
    (system_rt dev route cmd).rtm.rtm_protocol =
      (if route.flags.kernel = true then rt_protocol.RTPROT_KERNEL
       else rt_protocol.RTPROT_BOOT) ∧
    (system_rt dev route cmd).rtm.rtm_type =
      (if cmd = route_cmd.RTM_NEWROUTE then rt_type.RTN_UNICAST else rt_type.RTN_UNSPEC) ∧
    (system_rt dev route cmd).rtm.rtm_scope =
      (if cmd = route_cmd.RTM_DELROUTE then rt_scope.RT_SCOPE_NOWHERE
       else if ∃ b ∈ route.nexthop.take (if route.flags.inet6 = true then 16 else 4), b ≠ 0 then
         rt_scope.RT_SCOPE_UNIVERSE
       else rt_scope.RT_SCOPE_LINK) ∧
    ((∃ d, rt_attr.RTA_DST d ∈ (system_rt dev route cmd).attrs) ↔ 0 < route.mask) ∧
    ((∃ v, rt_attr.RTA_PRIORITY v ∈ (system_rt dev route cmd).attrs) ↔ 0 < route.metric) ∧
    ((∃ d, rt_attr.RTA_GATEWAY d ∈ (system_rt dev route cmd).attrs) ↔
      ∃ b ∈ route.nexthop.take (if route.flags.inet6 = true then 16 else 4), b ≠ 0) ∧
    rt_attr.RTA_OIF dev.ifindex ∈ (system_rt dev route cmd).attrs ∧
    (∀ d, rt_attr.RTA_DST d ∈ (system_rt dev route cmd).attrs →
      d = route.addr.take (if route.flags.inet6 = true then 16 else 4)) ∧
    (∀ v, rt_attr.RTA_PRIORITY v ∈ (system_rt dev route cmd).attrs → v = route.metric) ∧
    (∀ d, rt_attr.RTA_GATEWAY d ∈ (system_rt dev route cmd).attrs →
      d = route.nexthop.take (if route.flags.inet6 = true then 16 else 4)) := by
  have hmod : route.mask % 256 = route.mask := Nat.mod_eq_of_lt (by omega)
  have hgw : ∀ alen, (∃ b ∈ route.nexthop.take alen, b ≠ 0) ∨
      ((¬ ∃ b ∈ route.nexthop.take alen, b ≠ 0) ∧ have_gw route alen = false) := by
    intro alen
    by_cases hP : ∃ b ∈ route.nexthop.take alen, b ≠ 0
    · exact Or.inl hP
    · refine Or.inr ⟨hP, ?_⟩
      cases hg : have_gw route alen with
      | false => rfl
      | true => exact absurd ((have_gw_iff route alen).1 hg) hP
  cases cmd <;> cases h6 : route.flags.inet6 <;> cases hk : route.flags.kernel <;>
    by_cases h0 : route.mask = 0 <;> by_cases hm : route.metric = 0 <;>
    rcases hgw (if route.flags.inet6 = true then 16 else 4) with hP | ⟨hP, hg⟩ <;>
    simp only [h6, if_true, if_false, Bool.false_eq_true] at hP <;>
    first
    | (have hg := (have_gw_iff route _).2 hP
       simp [system_rt, hmod, h6, hk, h0, hm, hg, hP, Nat.pos_iff_ne_zero])
    | (simp only [h6, if_true, if_false, Bool.false_eq_true] at hg
       simp [system_rt, hmod, h6, hk, h0, hm, hg, hP, Nat.pos_iff_ne_zero])

theorem system_rt_message_witness :
    (system_rt dev_eth0 route_default route_cmd.RTM_NEWROUTE).rtm.rtm_dst_len = 0 ∧
    (¬ ∃ d, rt_attr.RTA_DST d ∈ (system_rt dev_eth0 route_default route_cmd.RTM_NEWROUTE).attrs) ∧
    (system_rt dev_eth0 route_default route_cmd.RTM_NEWROUTE).attrs =
      [rt_attr.RTA_GATEWAY [192, 168, 1, 1], rt_attr.RTA_OIF 3] ∧
    (system_rt dev_eth0 route_default route_cmd.RTM_NEWROUTE).rtm.rtm_scope =
      rt_scope.RT_SCOPE_UNIVERSE :=
  ⟨(system_rt_message dev_eth0 route_default route_cmd.RTM_NEWROUTE (by decide)).2.1,
   fun h => absurd
     ((system_rt_message dev_eth0 route_default route_cmd.RTM_NEWROUTE (by decide)).2.2.2.2.2.2.1.1
       h) (by decide),
   by decide, by decide⟩

/-- C18 (the code departs from it): `system_set_disable_ipv6` on the device
`eth0` opens `/proc/sys/net/ipv6/conf/<val>/disable_ipv6`, the value standing
where the interface name belongs, never the file of `eth0`; so do
`system_bridge_addif` with "1" and `system_bridge_delif` with "0". -/
theorem disable_ipv6_path_from_value :
    system_set_disable_ipv6 dev_eth0 "1" =
      [sys_op.sysctl_write "/proc/sys/net/ipv6/conf/1/disable_ipv6" "1"] ∧
    system_set_disable_ipv6 dev_eth0 "0" =
      [sys_op.sysctl_write "/proc/sys/net/ipv6/conf/0/disable_ipv6" "0"] ∧
    system_bridge_addif none dev_br0 dev_eth0 =
      [sys_op.sysctl_write "/proc/sys/net/ipv6/conf/1/disable_ipv6" "1",
       sys_op.ioctl ioctl_cmd.SIOCBRADDIF "br0"] ∧
    system_bridge_delif dev_br0 dev_eth0 =
      [sys_op.sysctl_write "/proc/sys/net/ipv6/conf/0/disable_ipv6" "0",
       sys_op.ioctl ioctl_cmd.SIOCBRDELIF "br0"] ∧
    snprintf 256 "/proc/sys/net/ipv6/conf/%s/disable_ipv6" dev_eth0.ifname =
      "/proc/sys/net/ipv6/conf/eth0/disable_ipv6" := by
  decide

/-- The path `system_set_disable_ipv6` opens does not depend on the device. -/
theorem disable_ipv6_ignores_device (dev dev' : device) (val : String) :
    system_set_disable_ipv6 dev val = system_set_disable_ipv6 dev' val := rfl

/-- C19 (the code departs from it): a SIT tunnel whose 6rd prefix does not
parse. `SIOCADDTUNNEL` succeeds, the call returns `-EINVAL`, and the last
request issued is the `SIOCADDTUNNEL`: no `SIOCDELTUNNEL` follows it. The same
holds for a prefix with mask 129 and for a relay prefix that does not parse;
only a failing `SIOCADD6RD` is followed by the delete. -/
theorem add_ip_tunnel_leaves_tunnel :
    system_add_ip_tunnel env_ok "6rd-wan" blob_6rd_bad =
      (neg_EINVAL, [sys_op.ioctl ioctl_cmd.SIOCDELTUNNEL "6rd-wan",
                    sys_op.ioctl ioctl_cmd.SIOCADDTUNNEL "sit0"]) ∧
    system_add_ip_tunnel { env_ok with parse_ip_and_netmask := fun _ _ => some 129 } "6rd-wan"
        blob_6rd_good =
      (neg_EINVAL, [sys_op.ioctl ioctl_cmd.SIOCDELTUNNEL "6rd-wan",
                    sys_op.ioctl ioctl_cmd.SIOCADDTUNNEL "sit0"]) ∧
    system_add_ip_tunnel env_ok "6rd-wan" { blob_6rd_good with relay_prefix_6rd := some "bogus" } =
      (neg_EINVAL, [sys_op.ioctl ioctl_cmd.SIOCDELTUNNEL "6rd-wan",
                    sys_op.ioctl ioctl_cmd.SIOCADDTUNNEL "sit0"]) ∧
    system_add_ip_tunnel { env_ok with add_6rd := -1 } "6rd-wan" blob_6rd_good =
      (-1, [sys_op.ioctl ioctl_cmd.SIOCDELTUNNEL "6rd-wan",
            sys_op.ioctl ioctl_cmd.SIOCADDTUNNEL "sit0",
            sys_op.ioctl ioctl_cmd.SIOCADD6RD "6rd-wan",
            sys_op.ioctl ioctl_cmd.SIOCDELTUNNEL "6rd-wan"]) := by
  decide

/-- When the tunnel has been created and `SIOCADD6RD` is issued and fails,
`SIOCDELTUNNEL` for the tunnel name follows and the call returns -1. -/
theorem add_6rd_failure_deletes (env : tunnel_env) (name : String) (tb : tunnel_blob)
    (h : sys_op.ioctl ioctl_cmd.SIOCADD6RD name ∈ (add_ip_tunnel_6rd env name tb).2)
    (hfail : env.add_6rd < 0) :
    add_ip_tunnel_6rd env name tb =
      (-1, [sys_op.ioctl ioctl_cmd.SIOCADD6RD name, sys_op.ioctl ioctl_cmd.SIOCDELTUNNEL name]) := by
  unfold add_ip_tunnel_6rd at h ⊢
  cases h1 : tb.prefix_6rd with
  | none => simp [h1] at h
  | some cur =>
    cases h2 : env.parse_ip_and_netmask true cur with
    | none => simp [h1, h2] at h
    | some mask =>
      by_cases h3 : mask > 128
      · simp [h1, h2, h3] at h
      · simp only [h1, h2, h3, if_false] at h ⊢
        split at h
        · simp at h
        · rename_i hrel
          simp [hrel, hfail, system_del_ip_tunnel]

/-! ### Entry API -/

theorem build_route_none_iff (ps : parsers) (tb : route_blob) (v6 : Bool) :
    build_route ps tb v6 = none ↔
      (∃ s, tb.netmask = some s ∧ ps.parse_netmask_string s v6 > (if v6 then 128 else 32)) ∨
      (∃ s, tb.target = some s ∧ ps.inet_pton v6 s = none) ∨
      (∃ s, tb.gateway = some s ∧ ps.inet_pton v6 s = none) := by
  unfold build_route
  cases hn : tb.netmask with
  | none =>
    cases ht : tb.target with
    | none =>
      cases hg : tb.gateway with
      | none => simp
      | some g => cases hpg : ps.inet_pton v6 g <;> simp [hpg]
    | some t =>
      cases hpt : ps.inet_pton v6 t with
      | none => simp [hpt]
      | some bt =>
        cases hg : tb.gateway with
        | none => simp [hpt]
        | some g => cases hpg : ps.inet_pton v6 g <;> simp [hpt, hpg]
  | some n =>
    by_cases hb : ps.parse_netmask_string n v6 > (if v6 then 128 else 32)
    · simp [hb]
    · cases ht : tb.target with
      | none =>
        cases hg : tb.gateway with
        | none => simp [hb]
        | some g => cases hpg : ps.inet_pton v6 g <;> simp [hb, hpg]
      | some t =>
        cases hpt : ps.inet_pton v6 t with
        | none => simp [hb, hpt]
        | some bt =>
          cases hg : tb.gateway with
          | none => simp [hb, hpt]
          | some g => cases hpg : ps.inet_pton v6 g <;> simp [hb, hpt, hpg]

theorem build_route_default_mask (ps : parsers) (tb : route_blob) (v6 : Bool) (r : device_route)
    (hn : tb.netmask = none) (hb : build_route ps tb v6 = some r) :
    r.mask = if v6 then 128 else 32 := by
  unfold build_route at hb
  simp only [hn, Option.bind_eq_some] at hb
  obtain ⟨r1, h1, r2, h2, r3, h3, hr⟩ := hb
  have hr := Option.some.inj hr
  subst hr
  have e1 := Option.some.inj h1
  have e2 : r2.mask = r1.mask := by
    cases ht : tb.target with
    | none => simp [ht] at h2; rw [h2]
    | some t =>
      cases hp : ps.inet_pton v6 t with
      | none => simp [ht, hp] at h2
      | some bt => simp [ht, hp] at h2; rw [← h2]
  have e3 : r3.mask = r2.mask := by
    cases hg : tb.gateway with
    | none => simp [hg] at h3; rw [h3]
    | some g =>
      cases hp : ps.inet_pton v6 g with
      | none => simp [hg, hp] at h3
      | some bg => simp [hg, hp] at h3; rw [← h3]
  have e0 : r1.mask = if v6 then 128 else 32 := by rw [← e1]
  cases tb.metric <;> cases tb.mtu <;> simp [e3, e2, e0]

/-- C15: `interface_ip_add_route` inserts nothing when `iface` is null and the
blob has no `interface` field or names no interface, when the netmask parses
to more than 32 (IPv4) or 128 (IPv6), or when the target or the gateway does
not parse; in every other case it inserts one route, with mask 32 or 128 when
there is no netmask field, into `config_ip` of the named interface when
`iface` is null and into `proto_ip` of `iface` otherwise. -/
theorem add_route_cases (ps : parsers) (interfaces : List interface) (iface : Option String)
    (tb : route_blob) (v6 : Bool) :
    ((iface = none ∧ tb.interface = none) →
      interface_ip_add_route ps interfaces iface tb v6 = add_route_result.nothing) ∧
    ((∃ s, iface = none ∧ tb.interface = some s ∧ ∀ i ∈ interfaces, i.name ≠ s) →
      interface_ip_add_route ps interfaces iface tb v6 = add_route_result.nothing) ∧
    ((∃ s, tb.netmask = some s ∧ ps.parse_netmask_string s v6 > (if v6 then 128 else 32)) →
      interface_ip_add_route ps interfaces iface tb v6 = add_route_result.nothing) ∧
    ((∃ s, tb.target = some s ∧ ps.inet_pton v6 s = none) →
      interface_ip_add_route ps interfaces iface tb v6 = add_route_result.nothing) ∧
    ((∃ s, tb.gateway = some s ∧ ps.inet_pton v6 s = none) →
      interface_ip_add_route ps interfaces iface tb v6 = add_route_result.nothing) ∧
    (¬ (iface = none ∧ tb.interface = none) →
      ¬ (∃ s, iface = none ∧ tb.interface = some s ∧ ∀ i ∈ interfaces, i.name ≠ s) →
      ¬ (∃ s, tb.netmask = some s ∧ ps.parse_netmask_string s v6 > (if v6 then 128 else 32)) →
      ¬ (∃ s, tb.target = some s ∧ ps.inet_pton v6 s = none) →
      ¬ (∃ s, tb.gateway = some s ∧ ps.inet_pton v6 s = none) →
      ∃ r, (tb.netmask = none → r.mask = if v6 then 128 else 32) ∧
        ((∀ i, iface = some i →
          interface_ip_add_route ps interfaces iface tb v6 =
            add_route_result.added i ip_layer.proto_ip r) ∧
         (iface = none → ∃ s, tb.interface = some s ∧ (∃ i ∈ interfaces, i.name = s) ∧
          interface_ip_add_route ps interfaces iface tb v6 =
            add_route_result.added s ip_layer.config_ip r))) := by
  have hnone : build_route ps tb v6 = none →
      interface_ip_add_route ps interfaces iface tb v6 = add_route_result.nothing := by
    intro h
    unfold interface_ip_add_route
    cases add_route_target interfaces iface tb with
    | none => rfl
    | some t => simp [h]
  have hfind : ∀ s, (∀ i ∈ interfaces, i.name ≠ s) →
      interfaces.find? (fun i => i.name == s) = none := by
    intro s hs
    rw [List.find?_eq_none]
    intro i hi
    simpa using hs i hi
  refine ⟨?_, ?_, ?_, ?_, ?_, ?_⟩
  · rintro ⟨h1, h2⟩
    simp [interface_ip_add_route, add_route_target, h1, h2]
  · rintro ⟨s, h1, h2, h3⟩
    simp [interface_ip_add_route, add_route_target, h1, h2, hfind s h3]
  · intro h
    exact hnone ((build_route_none_iff ps tb v6).2 (Or.inl h))
  · intro h
    exact hnone ((build_route_none_iff ps tb v6).2 (Or.inr (Or.inl h)))
  · intro h
    exact hnone ((build_route_none_iff ps tb v6).2 (Or.inr (Or.inr h)))
  · intro c1 c2 c3 c4 c5
    cases hb : build_route ps tb v6 with
    | none =>
      rcases (build_route_none_iff ps tb v6).1 hb with h | h | h
      · exact absurd h c3
      · exact absurd h c4
      · exact absurd h c5
    | some r =>
      refine ⟨r, fun hn => build_route_default_mask ps tb v6 r hn hb, ?_, ?_⟩
      · intro i hi
        simp [interface_ip_add_route, add_route_target, hi, hb]
      · intro hi
        cases hs : tb.interface with
        | none => exact absurd ⟨hi, hs⟩ c1
        | some s =>
          cases hf : interfaces.find? (fun i => i.name == s) with
          | none =>
            refine absurd ⟨s, hi, hs, ?_⟩ c2
            intro i hmem heq
            have := List.find?_eq_none.1 hf i hmem
            simp [heq] at this
          | some i0 =>
            have hmem := List.mem_of_find?_eq_some hf
            have hname : i0.name = s := by
              have := List.find?_some hf
              simpa using this
            refine ⟨s, rfl, ⟨i0, hmem, hname⟩, ?_⟩
            simp [interface_ip_add_route, add_route_target, hi, hs, hf, hb, hname]

theorem add_route_cases_witness :
    interface_ip_add_route parsers_sample [iface_m10] none
        { blob_metric with interface := some "wan" } false =
      add_route_result.added "wan" ip_layer.config_ip
        { route_net with metric := 7, flags := { DEVADDR_INET4 with metric := true } } ∧
    interface_ip_add_route parsers_sample [iface_m10] none
        { blob_metric with interface := some "lan" } false = add_route_result.nothing ∧
    interface_ip_add_route parsers_sample [iface_m10] (some "wan")
        { blob_metric with netmask := some "33" } false = add_route_result.nothing ∧
    interface_ip_add_route parsers_sample [iface_m10] (some "wan")
        { blob_metric with gateway := some "fe80::1" } false = add_route_result.nothing :=
  ⟨by decide,
   (add_route_cases parsers_sample [iface_m10] none { blob_metric with interface := some "lan" }
      false).2.1 ⟨"lan", rfl, rfl, by decide⟩,
   (add_route_cases parsers_sample [iface_m10] (some "wan")
      { blob_metric with netmask := some "33" } false).2.2.1 ⟨"33", rfl, by decide⟩,
   (add_route_cases parsers_sample [iface_m10] (some "wan")
      { blob_metric with gateway := some "fe80::1" } false).2.2.2.2.1 ⟨"fe80::1", rfl, by decide⟩⟩

/-! ### Set keys -/

/-- C20 (as stated it fails): the address callback leaves `10.0.0.1/24`,
inserted without a broadcast, with broadcast `10.0.0.255`, and the route
callback leaves a route inserted with metric 0 and no METRIC flag with the
interface metric 10: the keys are no longer the ones of the insertion. -/
theorem callbacks_change_key :
    (∃ a, (interface_update_proto_addr x86_64 device_route_zero device_route_zero iface_m10
        (some addr_10_0_0_1) none).1 = some a ∧ addr_key a ≠ addr_key addr_10_0_0_1) ∧
    (∃ r, (interface_update_proto_route ip_empty iface_m10 (some route_net) none).1 = some r ∧
        route_key r ≠ route_key route_net) := by
  constructor
  · exact ⟨{ addr_10_0_0_1 with broadcast := 0x0A0000FF, enabled := true }, by decide, by decide⟩
  · exact ⟨{ route_net with iface := some "wan", enabled := true, metric := 10 }, by decide,
      by decide⟩

/-- C20, amended: of the key fields of the new entry the address callback
writes `broadcast` only, and only for an IPv4 entry whose broadcast is 0; the
route callback writes `metric` only, and only when the METRIC flag is unset,
storing the interface metric. So the key is the one of the insertion for an
IPv6 address or an address with a broadcast, and for a route with the METRIC
flag or whose metric is the interface metric. -/
theorem callbacks_key_fields (pf : platform) (stack_old stack_new : device_route)
    (ip : interface_ip_settings) (iface : interface) :
    (∀ (n : device_addr) (o : Option device_addr),
      ∃ a, (interface_update_proto_addr pf stack_old stack_new iface (some n) o).1 = some a ∧
        addr_key a = (n.flags, n.mask, n.addr, (derive_broadcast pf n).broadcast,
          n.point_to_point) ∧
        ((n.flags.inet6 = true ∨ n.broadcast ≠ 0) → addr_key a = addr_key n)) ∧
    (∀ (n : device_route) (o : Option device_route),
      ∃ r, (interface_update_proto_route ip iface (some n) o).1 = some r ∧
        route_key r = (n.flags, n.mask, n.addr, n.nexthop, n.mtu,
          if n.flags.metric = true then n.metric else iface.metric) ∧
        ((n.flags.metric = true ∨ n.metric = iface.metric) → route_key r = route_key n)) := by
  constructor
  · intro n o
    have hd : (derive_broadcast pf n).flags = n.flags ∧
        (derive_broadcast pf n).mask = n.mask ∧ (derive_broadcast pf n).addr = n.addr ∧
        (derive_broadcast pf n).point_to_point = n.point_to_point := by
      unfold derive_broadcast
      split <;> simp
    obtain ⟨hf, hm, ha, hp⟩ := hd
    refine ⟨{ derive_broadcast pf n with enabled := true }, ?_, ?_, ?_⟩
    · simp [interface_update_proto_addr]
    · simp [addr_key, hf, hm, ha, hp]
    · intro h
      have hb : (derive_broadcast pf n).broadcast = n.broadcast := by
        rcases h with h | h
        · exact (derive_broadcast_below_32 pf n).2.2 h
        · exact (derive_broadcast_below_32 pf n).2.1 h
      simp [addr_key, hf, hm, ha, hp, hb]
  · intro n o
    cases hm : n.flags.metric
    · refine ⟨{ n with metric := iface.metric, iface := some iface.name,
                       enabled := enable_route ip n }, ?_, ?_, ?_⟩
      · simp [interface_update_proto_route, hm]
      · simp [route_key]
      · intro h
        rcases h with h | h
        · simp at h
        · simp [route_key, h]
    · refine ⟨{ n with iface := some iface.name, enabled := enable_route ip n }, ?_, ?_, ?_⟩
      · simp [interface_update_proto_route, hm]
      · simp [route_key]
      · intro _
        simp [route_key]

theorem callbacks_key_fields_witness :
    (∃ a, (interface_update_proto_addr x86_64 device_route_zero device_route_zero iface_m10
        (some addr_old) none).1 = some a ∧ addr_key a = addr_key addr_old) ∧
    (∃ r, (interface_update_proto_route ip_empty iface_m10 (some route_net_old) none).1 = some r ∧
        route_key r = route_key route_net_old) := by
  obtain ⟨h1, h2⟩ := callbacks_key_fields x86_64 device_route_zero device_route_zero ip_empty
    iface_m10
  obtain ⟨a, ha, _, hk⟩ := h1 addr_old none
  obtain ⟨r, hr, _, hk2⟩ := h2 route_net_old none
  exact ⟨⟨a, ha, hk (Or.inr (by decide))⟩, ⟨r, hr, hk2 (Or.inr (by decide))⟩⟩

/-! ### Hotplug messages -/

theorem hotplug_scan_cons_none (cur : List Char) (rest : List (List Char))
    (s i : Option (List Char)) (h : split_key cur = none) :
    hotplug_scan (cur :: rest) s i = hotplug_scan rest s i := by
  simp [hotplug_scan, h]

theorem hotplug_scan_cons_interface (cur v : List Char) (rest : List (List Char))
    (s i : Option (List Char)) (h : split_key cur = some ("INTERFACE".toList, v)) :
    hotplug_scan (cur :: rest) s i =
      match s with
      | some _ => some v
      | none => hotplug_scan rest none (some v) := by
  cases s <;> simp [hotplug_scan, h]

theorem hotplug_scan_cons_subsystem (cur v : List Char) (rest : List (List Char))
    (s i : Option (List Char)) (h : split_key cur = some ("SUBSYSTEM".toList, v)) :
    hotplug_scan (cur :: rest) s i =
      if v ≠ "net".toList then none
      else
        match i with
        | some x => some x
        | none => hotplug_scan rest (some v) none := by
  have hne : ¬ "SUBSYSTEM".toList = "INTERFACE".toList := by decide
  by_cases hv : v = "net".toList <;> cases i <;> simp [hotplug_scan, h, hne, hv]

theorem hotplug_scan_cons_other (cur k v : List Char) (rest : List (List Char))
    (s i : Option (List Char)) (h : split_key cur = some (k, v))
    (h1 : k ≠ "INTERFACE".toList) (h2 : k ≠ "SUBSYSTEM".toList) :
    hotplug_scan (cur :: rest) s i =
      match s, i with
      | some _, some x => some x
      | _, _ => hotplug_scan rest s i := by
  have h1' := h1
  have h2' := h2
  simp only [String.toList, ne_eq] at h1' h2'
  cases s <;> cases i <;> simp [hotplug_scan, h, h1', h2']

theorem msg_values_cons (key cur : List Char) (rest : List (List Char)) :
    msg_values key (cur :: rest) =
      match split_key cur with
      | some (k, v) => if k = key then v :: msg_values key rest else msg_values key rest
      | none => msg_values key rest := by
  unfold msg_values
  rw [List.filterMap_cons]
  cases h : split_key cur with
  | none => simp
  | some p =>
    obtain ⟨k, v⟩ := p
    by_cases hk : k = key <;> simp [hk]

theorem hotplug_scan_found (items : List (List Char))
    (hnet : ∀ v ∈ msg_values "SUBSYSTEM".toList items, v = "net".toList) :
    (∀ v0, msg_values "INTERFACE".toList items = [] →
      msg_values "SUBSYSTEM".toList items ≠ [] →
      hotplug_scan items none (some v0) = some v0) ∧
    (∀ sv v, msg_values "INTERFACE".toList items = [v] →
      hotplug_scan items (some sv) none = some v) ∧
    (∀ v, msg_values "INTERFACE".toList items = [v] →
      msg_values "SUBSYSTEM".toList items ≠ [] →
      hotplug_scan items none none = some v) := by
  have hne : ¬ "SUBSYSTEM".toList = "INTERFACE".toList := by decide
  have hne2 : ¬ "INTERFACE".toList = "SUBSYSTEM".toList := by decide
  induction items with
  | nil => simp [msg_values]
  | cons cur rest ih =>
    rw [msg_values_cons] at hnet
    rw [msg_values_cons, msg_values_cons]
    cases h : split_key cur with
    | none =>
      simp only [h] at hnet ⊢
      obtain ⟨iha, ihb, ihc⟩ := ih hnet
      simp only [hotplug_scan_cons_none _ _ _ _ h]
      exact ⟨iha, ihb, ihc⟩
    | some p =>
      obtain ⟨k, val⟩ := p
      simp only [h] at hnet ⊢
      by_cases hk : k = "INTERFACE".toList
      · subst hk
        simp only [hne2, if_false, if_true] at hnet ⊢
        obtain ⟨iha, ihb, ihc⟩ := ih hnet
        simp only [hotplug_scan_cons_interface _ _ _ _ _ h]
        refine ⟨?_, ?_, ?_⟩
        · intro v0 h0
          simp at h0
        · intro sv v hv
          simp only [List.cons.injEq] at hv
          rw [hv.1]
        · intro v hv hs
          simp only [List.cons.injEq] at hv
          rw [← hv.1]
          exact iha val hv.2 hs
      · by_cases hk2 : k = "SUBSYSTEM".toList
        · subst hk2
          simp only [hne, if_false, if_true] at hnet ⊢
          have hval : val = "net".toList := hnet val (List.mem_cons_self _ _)
          obtain ⟨iha, ihb, ihc⟩ := ih (fun v hv => hnet v (List.mem_cons_of_mem _ hv))
          simp only [hotplug_scan_cons_subsystem _ _ _ _ _ h, hval, ne_eq, not_true_eq_false,
            if_false]
          refine ⟨?_, ?_, ?_⟩
          · intro v0 _ _
            trivial
          · intro sv v hv
            exact ihb _ v hv
          · intro v hv _
            exact ihb _ v hv
        · simp only [hk, hk2, if_false] at hnet ⊢
          obtain ⟨iha, ihb, ihc⟩ := ih hnet
          simp only [hotplug_scan_cons_other _ _ _ _ _ _ h hk hk2]
          exact ⟨iha, ihb, ihc⟩

theorem hotplug_scan_no_subsystem (items : List (List Char))
    (h : msg_values "SUBSYSTEM".toList items = []) (i : Option (List Char)) :
    hotplug_scan items none i = none := by
  have hne : ¬ "INTERFACE".toList = "SUBSYSTEM".toList := by decide
  induction items generalizing i with
  | nil => rfl
  | cons cur rest ih =>
    rw [msg_values_cons] at h
    cases hs : split_key cur with
    | none =>
      simp only [hs] at h
      rw [hotplug_scan_cons_none _ _ _ _ hs]
      exact ih h i
    | some p =>
      obtain ⟨k, val⟩ := p
      simp only [hs] at h
      by_cases hk : k = "INTERFACE".toList
      · subst hk
        simp only [hne, if_false] at h
        rw [hotplug_scan_cons_interface _ _ _ _ _ hs]
        exact ih h _
      · by_cases hk2 : k = "SUBSYSTEM".toList
        · simp [hk2] at h
        · simp only [hk2, if_false] at h
          rw [hotplug_scan_cons_other _ _ _ _ _ _ hs hk hk2]
          cases i <;> exact ih h _

theorem hotplug_scan_no_interface (items : List (List Char))
    (h : msg_values "INTERFACE".toList items = []) (s : Option (List Char)) :
    hotplug_scan items s none = none := by
  have hne : ¬ "SUBSYSTEM".toList = "INTERFACE".toList := by decide
  induction items generalizing s with
  | nil => rfl
  | cons cur rest ih =>
    rw [msg_values_cons] at h
    cases hs : split_key cur with
    | none =>
      simp only [hs] at h
      rw [hotplug_scan_cons_none _ _ _ _ hs]
      exact ih h s
    | some p =>
      obtain ⟨k, val⟩ := p
      simp only [hs] at h
      by_cases hk : k = "INTERFACE".toList
      · simp [hk] at h
      · simp only [hk, if_false] at h
        by_cases hk2 : k = "SUBSYSTEM".toList
        · subst hk2
          rw [hotplug_scan_cons_subsystem _ _ _ _ _ hs]
          split
          · rfl
          · exact ih h _
        · rw [hotplug_scan_cons_other _ _ _ _ _ _ hs hk hk2]
          cases s <;> exact ih h _

theorem hotplug_scan_wrong_subsystem (items : List (List Char)) (v : List Char)
    (tail : List (List Char)) (h : msg_values "SUBSYSTEM".toList items = v :: tail)
    (hv : v ≠ "net".toList) (i : Option (List Char)) :
    hotplug_scan items none i = none := by
  have hne : ¬ "INTERFACE".toList = "SUBSYSTEM".toList := by decide
  induction items generalizing i with
  | nil => simp [msg_values] at h
  | cons cur rest ih =>
    rw [msg_values_cons] at h
    cases hs : split_key cur with
    | none =>
      simp only [hs] at h
      rw [hotplug_scan_cons_none _ _ _ _ hs]
      exact ih h i
    | some p =>
      obtain ⟨k, val⟩ := p
      simp only [hs] at h
      by_cases hk : k = "INTERFACE".toList
      · subst hk
        simp only [hne, if_false] at h
        rw [hotplug_scan_cons_interface _ _ _ _ _ hs]
        exact ih h _
      · by_cases hk2 : k = "SUBSYSTEM".toList
        · subst hk2
          simp only [if_true, List.cons.injEq] at h
          rw [hotplug_scan_cons_subsystem _ _ _ _ _ hs, h.1, if_pos hv]
        · simp only [hk2, if_false] at h
          rw [hotplug_scan_cons_other _ _ _ _ _ _ hs hk hk2]
          cases i <;> exact ih h _

theorem hotplug_scan_value (items : List (List Char)) (s i : Option (List Char))
    (v : List Char) (h : hotplug_scan items s i = some v) :
    i = some v ∨ v ∈ msg_values "INTERFACE".toList items := by
  induction items generalizing s i with
  | nil => simp [hotplug_scan] at h
  | cons cur rest ih =>
    rw [msg_values_cons]
    cases hs : split_key cur with
    | none =>
      rw [hotplug_scan_cons_none _ _ _ _ hs] at h
      simpa using ih s i h
    | some p =>
      obtain ⟨k, val⟩ := p
      by_cases hk : k = "INTERFACE".toList
      · subst hk
        rw [hotplug_scan_cons_interface _ _ _ _ _ hs] at h
        simp only [if_true]
        cases s with
        | some sv =>
          simp only [Option.some.injEq] at h
          exact Or.inr (by simp [h])
        | none =>
          rcases ih _ _ h with h1 | h1
          · simp only [Option.some.injEq] at h1
            exact Or.inr (by simp [h1])
          · exact Or.inr (List.mem_cons_of_mem _ h1)
      · simp only [hk, if_false]
        by_cases hk2 : k = "SUBSYSTEM".toList
        · subst hk2
          rw [hotplug_scan_cons_subsystem _ _ _ _ _ hs] at h
          split at h
          · simp at h
          · cases i with
            | some x => exact Or.inl h
            | none => exact ih _ _ h
        · rw [hotplug_scan_cons_other _ _ _ _ _ _ hs hk hk2] at h
          cases s with
          | none => exact ih _ _ h
          | some sv =>
            cases i with
            | none => exact ih _ _ h
            | some x => exact Or.inl h

theorem remove_not_add (data : List Char) (h : starts_with "remove@".toList data = true) :
    starts_with "add@".toList data = false := by
  cases data with
  | nil => simp [starts_with] at h
  | cons c t =>
    simp only [starts_with, String.toList, List.isPrefixOf, Bool.and_eq_true, beq_iff_eq] at h
    have hc : c = 'r' := h.1.symm
    subst hc
    simp [starts_with, List.isPrefixOf]

theorem device_get_set_present (devices : List device) (name : List Char) (dev : device)
    (state : Bool) (h : device_get devices name = some dev) :
    device_get (device_set_present devices dev.ifname state) name =
      some { dev with present := state } := by
  have hname : dev.ifname.toList = name := by
    have := List.find?_some h
    exact of_decide_eq_true this
  induction devices with
  | nil => exact absurd h (by simp [device_get])
  | cons d rest ih =>
    unfold device_get at h ih ⊢
    by_cases hd : d.ifname.toList = name
    · simp only [List.find?_cons, decide_eq_true hd, Option.some.injEq] at h
      subst h
      have hd2 : ({ d with present := state } : device).ifname.toList = name := hd
      simp only [device_set_present, if_true, List.find?_cons, decide_eq_true hd2]
    · have hne : ¬ d.ifname = dev.ifname := by
        intro e
        rw [e] at hd
        exact hd hname
      simp only [List.find?_cons, decide_eq_false hd] at h
      simp only [device_set_present, hne, if_false, List.find?_cons, decide_eq_false hd]
      exact ih h

/-- C14: a uevent whose first string begins with `add@` (`remove@`), whose
following strings carry one SUBSYSTEM key, with value `net`, and one INTERFACE
key naming an existing device of type simple, marks that device present
(absent). A message with another first string, without SUBSYSTEM key, without
INTERFACE key, whose first SUBSYSTEM value is not `net`, or whose INTERFACE
values name no device of type simple, changes nothing. -/
theorem hotplug_presence (devices : List device) (data : List Char)
    (items : List (List Char)) :
    (∀ (add : Bool) (name : List Char) (dev : device),
      starts_with (if add = true then "add@".toList else "remove@".toList) data = true →
      msg_values "SUBSYSTEM".toList items = ["net".toList] →
      msg_values "INTERFACE".toList items = [name] →
      device_get devices name = some dev → dev.type = device_type.simple →
      handle_hotplug_msg devices (data :: items) =
        device_set_present devices dev.ifname add ∧
      device_get (handle_hotplug_msg devices (data :: items)) name =
        some { dev with present := add }) ∧
    (starts_with "add@".toList data = false → starts_with "remove@".toList data = false →
      handle_hotplug_msg devices (data :: items) = devices) ∧
    (msg_values "SUBSYSTEM".toList items = [] →
      handle_hotplug_msg devices (data :: items) = devices) ∧
    (msg_values "INTERFACE".toList items = [] →
      handle_hotplug_msg devices (data :: items) = devices) ∧
    (∀ v tail, msg_values "SUBSYSTEM".toList items = v :: tail → v ≠ "net".toList →
      handle_hotplug_msg devices (data :: items) = devices) ∧
    ((∀ v ∈ msg_values "INTERFACE".toList items, ∀ dev, device_get devices v = some dev →
        dev.type ≠ device_type.simple) →
      handle_hotplug_msg devices (data :: items) = devices) := by
  have hscan_none : hotplug_scan items none none = none →
      handle_hotplug_msg devices (data :: items) = devices := by
    intro h
    unfold handle_hotplug_msg
    simp only [h]
    split <;> rfl
  refine ⟨?_, ?_, ?_, ?_, ?_, ?_⟩
  · intro add name dev hstart hsub hint hget htype
    have hnet : ∀ v ∈ msg_values "SUBSYSTEM".toList items, v = "net".toList := by
      intro v hv
      rw [hsub] at hv
      simpa using hv
    have hscan : hotplug_scan items none none = some name :=
      (hotplug_scan_found items hnet).2.2 name hint (by rw [hsub]; simp)
    have hres : handle_hotplug_msg devices (data :: items) =
        device_set_present devices dev.ifname add := by
      unfold handle_hotplug_msg
      cases add with
      | true =>
        simp only [if_true] at hstart
        simp only [hstart, hscan, hget, htype, ↓reduceIte, ne_eq, not_true_eq_false]
      | false =>
        simp only [Bool.false_eq_true, if_false] at hstart
        simp only [hstart, remove_not_add data hstart, hscan, hget, htype, ↓reduceIte, ne_eq,
          not_true_eq_false, Bool.false_eq_true]
    exact ⟨hres, by rw [hres]; exact device_get_set_present devices name dev add hget⟩
  · intro h1 h2
    simp only [handle_hotplug_msg, h1, h2, Bool.false_eq_true, ↓reduceIte]
  · intro h
    exact hscan_none (hotplug_scan_no_subsystem items h none)
  · intro h
    exact hscan_none (hotplug_scan_no_interface items h none)
  · intro v tail h hv
    exact hscan_none (hotplug_scan_wrong_subsystem items v tail h hv none)
  · intro h
    unfold handle_hotplug_msg
    simp only
    split
    · rfl
    · cases hscan : hotplug_scan items none none with
      | none => rfl
      | some name =>
        have hmem : name ∈ msg_values "INTERFACE".toList items := by
          rcases hotplug_scan_value items none none name hscan with h1 | h1
          · exact absurd h1 (by simp)
          · exact h1
        cases hget : device_get devices name with
        | none => simp only [hget]
        | some dev =>
          have ht := h name hmem dev hget
          simp only [hget, ht, ne_eq, not_false_eq_true, ↓reduceIte]

theorem hotplug_presence_witness :
    (handle_hotplug_msg [dev_eth0, dev_br0] (uevent_eth0 "add@/class/net/eth0") =
        device_set_present [dev_eth0, dev_br0] dev_eth0.ifname true ∧
      device_get (handle_hotplug_msg [dev_eth0, dev_br0] (uevent_eth0 "add@/class/net/eth0"))
        "eth0".toList = some { dev_eth0 with present := true }) ∧
    handle_hotplug_msg [dev_eth0, dev_br0] (uevent_eth0 "add@/class/net/eth0") =
      [{ dev_eth0 with present := true }, dev_br0] ∧
    handle_hotplug_msg [{ dev_eth0 with present := true }, dev_br0]
        (uevent_eth0 "remove@/class/net/eth0") = [dev_eth0, dev_br0] ∧
    handle_hotplug_msg [dev_eth0, dev_br0] (uevent_eth0 "change@/class/net/eth0") =
      [dev_eth0, dev_br0] :=
  ⟨(hotplug_presence [dev_eth0, dev_br0] "add@/class/net/eth0".toList
      (uevent_eth0 "add@/class/net/eth0").tail).1 true "eth0".toList dev_eth0
      (by decide) (by decide) (by decide) (by decide) (by decide),
   by decide, by decide,
   (hotplug_presence [dev_eth0, dev_br0] "change@/class/net/eth0".toList
      (uevent_eth0 "change@/class/net/eth0").tail).2.1 (by decide) (by decide)⟩

/-! ### Bounds of `clear_if_addr` -/

/-- For a mask from 1 to 128 and pointers of at most 16 bytes, every byte
offset `clear_if_addr` touches lies in 0..15; for mask 0 the offset -1 is
among them on every platform. -/
theorem clear_if_addr_offsets_bounds (pf : platform) (mask : Nat) :
    (1 ≤ mask → mask ≤ 128 → pf.sizeof_ptr ≤ 16 →
      ∀ i ∈ clear_if_addr_offsets pf mask, 0 ≤ i ∧ i ≤ 15) ∧
    (-1 : Int) ∈ clear_if_addr_offsets pf 0 := by
  constructor
  · intro h1 h2 hs i hi
    simp only [clear_if_addr_offsets, List.mem_append, List.mem_singleton] at hi
    rcases hi with hi | hi
    · split at hi
      · simp only [List.mem_map, List.mem_range] at hi
        obtain ⟨k, hk, rfl⟩ := hi
        omega
      · simp at hi
    · omega
  · simp [clear_if_addr_offsets]

/-- C21 (the code departs from it): for mask 0, the prefix length of a default
route, `m_bytes` is 0 and the last statement of `clear_if_addr` reads and
writes `p[-1]`, the byte before the union, with 8-byte and with 4-byte
pointers. -/
theorem clear_if_addr_touches_before :
    clear_if_addr_offsets x86_64 0 = [0, 1, 2, 3, 4, 5, 6, 7, -1] ∧
    clear_if_addr_offsets mips32 0 = [0, 1, 2, 3, -1] ∧
    ¬ (∀ i ∈ clear_if_addr_offsets x86_64 0, 0 ≤ i ∧ i ≤ 15) ∧
    ¬ (∀ i ∈ clear_if_addr_offsets mips32 0, 0 ≤ i ∧ i ≤ 15) := by
  decide

end Netifd
